import Mathlib

/-!
Load-balance outbound group and in-memory provider

A shallow embedding of

* `provider/memory.go`: the static provider `Memory` (`NewMemory`, `Outbounds`, `Outbound`);
* `protocol/group/loadbalance.go`: the group `LoadBalance` (`NewLoadBalance`, `DialContext`,
  `ListenPacket`, `NewConnectionEx`, `NewPacketConnectionEx`, `Close`, `Start`).

Collaborators whose code lives outside these two files (the balancer, the outbounds, the
logger, the connection manager, the group adapter) are taken as parameters: every call into
them is a function of an explicit world state, and every such call is recorded in a trace.
-/

namespace provider

/-- A Go `map[string]V`: a lookup that gives the stored value, or nothing for an absent key. -/
def GoMap (V : Type) : Type := String → Option V

/-- The result of `make(map[string]V)`: no key is present. -/
def GoMap.make (V : Type) : GoMap V := fun _ => none

/-- The assignment `m[k] = v`. -/
def GoMap.set {V : Type} (m : GoMap V) (k : String) (v : V) : GoMap V :=
  fun k' => if k' = k then some v else m k'

/-- The two-valued index expression `v, ok := m[k]`; an absent key gives the zero value
(`nil` for an interface, here `none`) and `false`. -/
def GoMap.lookup {V : Type} (m : GoMap V) (k : String) : Option V × Bool :=
  (m k, (m k).isSome)

/-- The struct `Memory`: the outbounds as given and the index by tag. -/
structure Memory (α : Type) where
  outbounds : List α
  outboundsByTag : GoMap α

/-- The function `NewMemory`: the `for ... range` loop writes `tags[outbound.Tag()] = outbound`
for each outbound in order. `Tag` is the method `adapter.Outbound.Tag`. -/
def NewMemory {α : Type} (Tag : α → String) (outbounds : List α) : Memory α :=
  let tags := outbounds.foldl (fun tags outbound => tags.set (Tag outbound) outbound)
    (GoMap.make α)
  { outbounds := outbounds, outboundsByTag := tags }

/-- The method `Memory.Outbounds`. -/
def Memory.Outbounds {α : Type} (s : Memory α) : List α := s.outbounds

/-- The method `Memory.Outbound`: `detour, ok := s.outboundsByTag[tag]; return detour, ok`. -/
def Memory.Outbound {α : Type} (s : Memory α) (tag : String) : Option α × Bool :=
  let r := s.outboundsByTag.lookup tag
  (r.1, r.2)

end provider

namespace group

/-- The constant `N.NetworkTCP`. -/
def NetworkTCP : String := "tcp"

/-- The constant `N.NetworkUDP`. -/
def NetworkUDP : String := "udp"

/-- A Go `error` value as the group handles it: one it makes itself with `E.New(message)`, or
one handed to it by a collaborator (a backend, the balancer, the group adapter). -/
inductive Error (E : Type) where
  | New (message : String)
  | upstream (err : E)
  deriving DecidableEq, Repr

/-- Modelled from the spec: `newErrDailer` is not in the source files; the spec describes its
result as a sentinel handler that deterministically fails with the condition it was built
from. The dialer given to the connection manager is either that sentinel, holding its error,
or the selected outbound itself. -/
inductive Dialer (O E : Type) where
  | newErrDailer (err : Error E)
  | outbound (selected : O)
  deriving DecidableEq, Repr

/-- One call from the group into a collaborator, with its arguments and what it returned.
A nil pointer, nil interface or nil error is `none`. -/
inductive Event (B O D E C PC NPC Ctx Meta H : Type) where
  | Pick (b : Option B) (ctx : Ctx) (network : String) (destination : D) (picked : Option O)
  | ReportFailure (b : Option B) (picked : O)
  | DialContext (picked : O) (ctx : Ctx) (network : String) (destination : D)
      (conn : Option C) (err : Option E)
  | ListenPacket (picked : O) (ctx : Ctx) (destination : D) (conn : Option PC) (err : Option E)
  | ErrorContext (ctx : Ctx) (err : E)
  | NewConnection (ctx : Ctx) (dialer : Dialer O E) (conn : C) (metadata : Meta) (onClose : H)
  | NewPacketConnection (ctx : Ctx) (dialer : Dialer O E) (conn : NPC) (metadata : Meta)
      (onClose : H)
  | HandlerNewConnectionEx (handler : O) (ctx : Ctx) (conn : C) (metadata : Meta) (onClose : H)
  | HandlerNewPacketConnectionEx (handler : O) (ctx : Ctx) (conn : NPC) (metadata : Meta)
      (onClose : H)
  | InitProviders (err : Option E)
  | BalancerNew (b : Option B) (err : Option E)
  | BalancerStart (b : Option B) (err : Option E)
  | BalancerClose (b : Option B) (err : Option E)
  deriving DecidableEq, Repr

/-- The struct `LoadBalance`. The embedded `*balancer.Balancer` is a pointer: `none` is nil. -/
structure LoadBalance (G B Ctx R L OM PM CM Opt : Type) where
  GroupAdapter : G
  Balancer : Option B
  ctx : Ctx
  router : R
  logger : L
  outbound : OM
  provider : PM
  connection : CM
  options : Opt
  deriving DecidableEq, Repr

/-- Everything the group calls that is defined outside `loadbalance.go`. `W` is the state of
the world outside the `LoadBalance` struct; a call takes the world and gives its results and
the next world. A method takes its receiver after the world. -/
structure Env (W B O D E C PC NPC Ctx Meta H G R L OM PM CM Opt PGO PS : Type) where
  /-- The method `Balancer.Pick`, promoted to the group through the embedded pointer. -/
  Pick : W → Option B → Ctx → String → D → Option O × W
  /-- The method `Balancer.ReportFailure`, promoted likewise. -/
  ReportFailure : W → Option B → O → W
  /-- The method `Balancer.Start`. -/
  BalancerStart : W → Option B → Option E × W
  /-- The method `Balancer.Close`. -/
  BalancerClose : W → Option B → Option E × W
  /-- The function `balancer.New`. -/
  BalancerNew : W → Ctx → R → OM → PS → Opt → L → (Option B × Option E) × W
  /-- The constant `C.TypeLoadBalance`. -/
  TypeLoadBalance : String
  /-- The field `ProviderGroupCommonOption` of the options. -/
  ProviderGroupCommonOption : Opt → PGO
  /-- The function `outbound.NewGroupAdapter`. -/
  NewGroupAdapter : String → String → List String → R → PGO → G
  /-- The method `GroupAdapter.InitProviders`; it may change the adapter. -/
  InitProviders : W → G → OM → PM → (Option E × G) × W
  /-- The method `GroupAdapter.Providers`. -/
  Providers : G → PS
  /-- The three uses of `service.FromContext`. -/
  OutboundManagerFromContext : Ctx → OM
  ProviderManagerFromContext : Ctx → PM
  ConnectionManagerFromContext : Ctx → CM
  /-- The method `adapter.Outbound.DialContext` of a backend. -/
  OutboundDialContext : W → O → Ctx → String → D → (Option C × Option E) × W
  /-- The method `adapter.Outbound.ListenPacket` of a backend. -/
  OutboundListenPacket : W → O → Ctx → D → (Option PC × Option E) × W
  /-- Whether the type assertion `selected.(adapter.ConnectionHandlerEx)` holds. -/
  IsConnectionHandlerEx : O → Bool
  /-- Whether the type assertion `selected.(adapter.PacketConnectionHandlerEx)` holds. -/
  IsPacketConnectionHandlerEx : O → Bool
  /-- The method `NewConnectionEx` of an outbound that is a `ConnectionHandlerEx`. -/
  HandlerNewConnectionEx : W → O → Ctx → C → Meta → H → W
  /-- The method `NewPacketConnectionEx` of an outbound that is a `PacketConnectionHandlerEx`. -/
  HandlerNewPacketConnectionEx : W → O → Ctx → NPC → Meta → H → W
  /-- The method `ErrorContext` of the logger. -/
  ErrorContext : W → L → Ctx → E → W
  /-- The method `NewConnection` of the connection manager. -/
  NewConnection : W → CM → Ctx → Dialer O E → C → Meta → H → W
  /-- The method `NewPacketConnection` of the connection manager. -/
  NewPacketConnection : W → CM → Ctx → Dialer O E → NPC → Meta → H → W
  /-- The function `interrupt.ContextWithIsExternalConnection`. -/
  ContextWithIsExternalConnection : Ctx → Ctx
  /-- The field `Destination` of `adapter.InboundContext`. -/
  Destination : Meta → D

/-- What a call of a group method gives: the returned values, the world after the call, and
the calls it made into its collaborators, in order. -/
structure Ret (W Ev α : Type) where
  val : α
  world : W
  trace : List Ev

/-- What a call of a lifecycle method gives: as `Ret`, and the receiver struct after it. -/
structure SelfRet (S W Ev α : Type) where
  val : α
  self : S
  world : W
  trace : List Ev

section methods

variable {W B O D E C PC NPC Ctx Meta H G R L OM PM CM Opt PGO PS : Type}

/-- The function `NewLoadBalance`; the field `Balancer` is not set, so it is nil. The returned
error is always nil and is left out. -/
def NewLoadBalance (env : Env W B O D E C PC NPC Ctx Meta H G R L OM PM CM Opt PGO PS)
    (ctx : Ctx) (router : R) (logger : L) (tag : String) (options : Opt) :
    LoadBalance G B Ctx R L OM PM CM Opt :=
  { GroupAdapter := env.NewGroupAdapter env.TypeLoadBalance tag [NetworkTCP, NetworkUDP] router
      (env.ProviderGroupCommonOption options)
    Balancer := none
    ctx := ctx
    router := router
    logger := logger
    outbound := env.OutboundManagerFromContext ctx
    provider := env.ProviderManagerFromContext ctx
    connection := env.ConnectionManagerFromContext ctx
    options := options }

/-- The local `maxRetry := 5` of `DialContext` and of `ListenPacket`. -/
def maxRetry : Nat := 5

/-- The `for i := 0; i < maxRetry; i++` loop of `DialContext`, by the number `maxRetry - i` of
iterations still allowed; `lastErr` is the local of that name (`none` is nil). -/
def DialContext.loop (env : Env W B O D E C PC NPC Ctx Meta H G R L OM PM CM Opt PGO PS)
    (s : LoadBalance G B Ctx R L OM PM CM Opt) (ctx : Ctx) (network : String) (destination : D) :
    Nat → Option (Error E) → W →
      Ret W (Event B O D E C PC NPC Ctx Meta H) (Option C × Option (Error E))
  | 0, lastErr, w => ⟨(none, lastErr), w, []⟩
  | n + 1, _, w =>
    let p := env.Pick w s.Balancer ctx network destination
    match p.1 with
    | none =>
      ⟨(none, some (Error.New "no outbound available")), p.2,
        [Event.Pick s.Balancer ctx network destination none]⟩
    | some picked =>
      let d := env.OutboundDialContext p.2 picked ctx network destination
      match d.1.2 with
      | none =>
        ⟨(d.1.1, none), d.2,
          [Event.Pick s.Balancer ctx network destination (some picked),
           Event.DialContext picked ctx network destination d.1.1 none]⟩
      | some err =>
        let w3 := env.ErrorContext d.2 s.logger ctx err
        let w4 := env.ReportFailure w3 s.Balancer picked
        let r := DialContext.loop env s ctx network destination n (some (Error.upstream err)) w4
        ⟨r.val, r.world,
          Event.Pick s.Balancer ctx network destination (some picked) ::
          Event.DialContext picked ctx network destination d.1.1 (some err) ::
          Event.ErrorContext ctx err ::
          Event.ReportFailure s.Balancer picked :: r.trace⟩

/-- The method `LoadBalance.DialContext`. -/
def DialContext (env : Env W B O D E C PC NPC Ctx Meta H G R L OM PM CM Opt PGO PS)
    (s : LoadBalance G B Ctx R L OM PM CM Opt) (w : W) (ctx : Ctx) (network : String)
    (destination : D) :
    Ret W (Event B O D E C PC NPC Ctx Meta H) (Option C × Option (Error E)) :=
  DialContext.loop env s ctx network destination maxRetry none w

/-- The `for` loop of `ListenPacket`, as `DialContext.loop`. -/
def ListenPacket.loop (env : Env W B O D E C PC NPC Ctx Meta H G R L OM PM CM Opt PGO PS)
    (s : LoadBalance G B Ctx R L OM PM CM Opt) (ctx : Ctx) (destination : D) :
    Nat → Option (Error E) → W →
      Ret W (Event B O D E C PC NPC Ctx Meta H) (Option PC × Option (Error E))
  | 0, lastErr, w => ⟨(none, lastErr), w, []⟩
  | n + 1, _, w =>
    let p := env.Pick w s.Balancer ctx NetworkUDP destination
    match p.1 with
    | none =>
      ⟨(none, some (Error.New "no outbound available")), p.2,
        [Event.Pick s.Balancer ctx NetworkUDP destination none]⟩
    | some picked =>
      let d := env.OutboundListenPacket p.2 picked ctx destination
      match d.1.2 with
      | none =>
        ⟨(d.1.1, none), d.2,
          [Event.Pick s.Balancer ctx NetworkUDP destination (some picked),
           Event.ListenPacket picked ctx destination d.1.1 none]⟩
      | some err =>
        let w3 := env.ErrorContext d.2 s.logger ctx err
        let w4 := env.ReportFailure w3 s.Balancer picked
        let r := ListenPacket.loop env s ctx destination n (some (Error.upstream err)) w4
        ⟨r.val, r.world,
          Event.Pick s.Balancer ctx NetworkUDP destination (some picked) ::
          Event.ListenPacket picked ctx destination d.1.1 (some err) ::
          Event.ErrorContext ctx err ::
          Event.ReportFailure s.Balancer picked :: r.trace⟩

/-- The method `LoadBalance.ListenPacket`. -/
def ListenPacket (env : Env W B O D E C PC NPC Ctx Meta H G R L OM PM CM Opt PGO PS)
    (s : LoadBalance G B Ctx R L OM PM CM Opt) (w : W) (ctx : Ctx) (destination : D) :
    Ret W (Event B O D E C PC NPC Ctx Meta H) (Option PC × Option (Error E)) :=
  ListenPacket.loop env s ctx destination maxRetry none w

/-- The method `LoadBalance.NewConnectionEx`. -/
def NewConnectionEx (env : Env W B O D E C PC NPC Ctx Meta H G R L OM PM CM Opt PGO PS)
    (s : LoadBalance G B Ctx R L OM PM CM Opt) (w : W) (ctx : Ctx) (conn : C) (metadata : Meta)
    (onClose : H) : Ret W (Event B O D E C PC NPC Ctx Meta H) Unit :=
  let p := env.Pick w s.Balancer ctx NetworkUDP (env.Destination metadata)
  match p.1 with
  | none =>
    let dialer : Dialer O E := Dialer.newErrDailer (Error.New "no outbound available")
    ⟨(), env.NewConnection p.2 s.connection ctx dialer conn metadata onClose,
      [Event.Pick s.Balancer ctx NetworkUDP (env.Destination metadata) none,
       Event.NewConnection ctx dialer conn metadata onClose]⟩
  | some selected =>
    let ctx1 := env.ContextWithIsExternalConnection ctx
    if env.IsConnectionHandlerEx selected then
      ⟨(), env.HandlerNewConnectionEx p.2 selected ctx1 conn metadata onClose,
        [Event.Pick s.Balancer ctx NetworkUDP (env.Destination metadata) (some selected),
         Event.HandlerNewConnectionEx selected ctx1 conn metadata onClose]⟩
    else
      ⟨(), env.NewConnection p.2 s.connection ctx1 (Dialer.outbound selected) conn metadata
          onClose,
        [Event.Pick s.Balancer ctx NetworkUDP (env.Destination metadata) (some selected),
         Event.NewConnection ctx1 (Dialer.outbound selected) conn metadata onClose]⟩

/-- The method `LoadBalance.NewPacketConnectionEx`. -/
def NewPacketConnectionEx (env : Env W B O D E C PC NPC Ctx Meta H G R L OM PM CM Opt PGO PS)
    (s : LoadBalance G B Ctx R L OM PM CM Opt) (w : W) (ctx : Ctx) (conn : NPC)
    (metadata : Meta) (onClose : H) : Ret W (Event B O D E C PC NPC Ctx Meta H) Unit :=
  let p := env.Pick w s.Balancer ctx NetworkUDP (env.Destination metadata)
  match p.1 with
  | none =>
    let dialer : Dialer O E := Dialer.newErrDailer (Error.New "no outbound available")
    ⟨(), env.NewPacketConnection p.2 s.connection ctx dialer conn metadata onClose,
      [Event.Pick s.Balancer ctx NetworkUDP (env.Destination metadata) none,
       Event.NewPacketConnection ctx dialer conn metadata onClose]⟩
  | some selected =>
    let ctx1 := env.ContextWithIsExternalConnection ctx
    if env.IsPacketConnectionHandlerEx selected then
      ⟨(), env.HandlerNewPacketConnectionEx p.2 selected ctx1 conn metadata onClose,
        [Event.Pick s.Balancer ctx NetworkUDP (env.Destination metadata) (some selected),
         Event.HandlerNewPacketConnectionEx selected ctx1 conn metadata onClose]⟩
    else
      ⟨(), env.NewPacketConnection p.2 s.connection ctx1 (Dialer.outbound selected) conn
          metadata onClose,
        [Event.Pick s.Balancer ctx NetworkUDP (env.Destination metadata) (some selected),
         Event.NewPacketConnection ctx1 (Dialer.outbound selected) conn metadata onClose]⟩

/-- The method `LoadBalance.Close`. It assigns to no field, so `self` is the receiver. -/
def Close (env : Env W B O D E C PC NPC Ctx Meta H G R L OM PM CM Opt PGO PS)
    (s : LoadBalance G B Ctx R L OM PM CM Opt) (w : W) :
    SelfRet (LoadBalance G B Ctx R L OM PM CM Opt) W (Event B O D E C PC NPC Ctx Meta H)
      (Option E) :=
  match s.Balancer with
  | none => ⟨none, s, w, []⟩
  | some b =>
    let c := env.BalancerClose w (some b)
    ⟨c.1, s, c.2, [Event.BalancerClose (some b) c.1]⟩

/-- The method `LoadBalance.Start`. -/
def Start (env : Env W B O D E C PC NPC Ctx Meta H G R L OM PM CM Opt PGO PS)
    (s : LoadBalance G B Ctx R L OM PM CM Opt) (w : W) :
    SelfRet (LoadBalance G B Ctx R L OM PM CM Opt) W (Event B O D E C PC NPC Ctx Meta H)
      (Option E) :=
  let i := env.InitProviders w s.GroupAdapter s.outbound s.provider
  let s1 := { s with GroupAdapter := i.1.2 }
  match i.1.1 with
  | some err => ⟨some err, s1, i.2, [Event.InitProviders (some err)]⟩
  | none =>
    let n := env.BalancerNew i.2 s1.ctx s1.router s1.outbound (env.Providers s1.GroupAdapter)
      s1.options s1.logger
    match n.1.2 with
    | some err =>
      ⟨some err, s1, n.2, [Event.InitProviders none, Event.BalancerNew n.1.1 (some err)]⟩
    | none =>
      let s2 := { s1 with Balancer := n.1.1 }
      let t := env.BalancerStart n.2 s2.Balancer
      ⟨t.1, s2, t.2,
        [Event.InitProviders none, Event.BalancerNew n.1.1 none,
         Event.BalancerStart s2.Balancer t.1]⟩

/-- A run of `n` successive `Close` calls on one group: the returned errors in order, the
group and the world after the last call, and all calls made. -/
def closeTimes (env : Env W B O D E C PC NPC Ctx Meta H G R L OM PM CM Opt PGO PS) :
    Nat → LoadBalance G B Ctx R L OM PM CM Opt → W →
      SelfRet (LoadBalance G B Ctx R L OM PM CM Opt) W (Event B O D E C PC NPC Ctx Meta H)
        (List (Option E))
  | 0, s, w => ⟨[], s, w, []⟩
  | n + 1, s, w =>
    let c := Close env s w
    let r := closeTimes env n c.self c.world
    ⟨c.val :: r.val, r.self, r.world, c.trace ++ r.trace⟩

end methods

/-! ### Reading a trace -/

section traces

variable {B O D E C PC NPC Ctx Meta H : Type}

/-- Whether the event is a backend attempt: a dial or a listen on a picked outbound. -/
def Event.isAttempt : Event B O D E C PC NPC Ctx Meta H → Bool
  | .DialContext _ _ _ _ _ _ => true
  | .ListenPacket _ _ _ _ _ => true
  | _ => false

/-- The error of a backend attempt that failed. -/
def Event.failure? : Event B O D E C PC NPC Ctx Meta H → Option E
  | .DialContext _ _ _ _ _ (some err) => some err
  | .ListenPacket _ _ _ _ (some err) => some err
  | _ => none

/-- The candidate of a backend attempt that failed. -/
def Event.failedCandidate? : Event B O D E C PC NPC Ctx Meta H → Option O
  | .DialContext picked _ _ _ _ (some _) => some picked
  | .ListenPacket picked _ _ _ (some _) => some picked
  | _ => none

/-- The candidate given to `ReportFailure`. -/
def Event.reported? : Event B O D E C PC NPC Ctx Meta H → Option O
  | .ReportFailure _ picked => some picked
  | _ => none

/-- Whether the event is a `Pick` call. -/
def Event.isPick : Event B O D E C PC NPC Ctx Meta H → Bool
  | .Pick _ _ _ _ _ => true
  | _ => false

/-- Whether the event is a `Pick` call that returned nil. -/
def Event.isPickNone : Event B O D E C PC NPC Ctx Meta H → Bool
  | .Pick _ _ _ _ none => true
  | _ => false

/-- Whether the event is a call of the strategy's stop hook `Balancer.Close`. -/
def Event.isBalancerClose : Event B O D E C PC NPC Ctx Meta H → Bool
  | .BalancerClose _ _ => true
  | _ => false

/-- The number of backend attempts in a trace. -/
def attempts (tr : List (Event B O D E C PC NPC Ctx Meta H)) : Nat :=
  (tr.filter Event.isAttempt).length

/-- The errors of the failed backend attempts of a trace, in order. -/
def failures (tr : List (Event B O D E C PC NPC Ctx Meta H)) : List E :=
  tr.filterMap Event.failure?

/-- The candidates of the failed backend attempts of a trace, in order. -/
def failedCandidates (tr : List (Event B O D E C PC NPC Ctx Meta H)) : List O :=
  tr.filterMap Event.failedCandidate?

/-- The candidates given to `ReportFailure` in a trace, in order. -/
def reports (tr : List (Event B O D E C PC NPC Ctx Meta H)) : List O :=
  tr.filterMap Event.reported?

/-- The network argument of a `Pick` call. -/
def Event.pickNetwork? : Event B O D E C PC NPC Ctx Meta H → Option String
  | .Pick _ _ network _ _ => some network
  | _ => none

/-- The network arguments of the `Pick` calls of a trace, in order. -/
def pickNetworks (tr : List (Event B O D E C PC NPC Ctx Meta H)) : List String :=
  tr.filterMap Event.pickNetwork?

/-- The number of `Pick` calls in a trace. -/
def picks (tr : List (Event B O D E C PC NPC Ctx Meta H)) : Nat :=
  (tr.filter Event.isPick).length

/-- The number of calls of the stop hook `Balancer.Close` in a trace. -/
def stops (tr : List (Event B O D E C PC NPC Ctx Meta H)) : Nat :=
  (tr.filter Event.isBalancerClose).length

end traces

/-! ### Replaying a trace on the world -/

section replaying

variable {W B O D E C PC NPC Ctx Meta H G R L OM PM CM Opt PGO PS : Type}

/-- The world after the call recorded by an event, when the group whose struct is `s` makes
that call in the world `w`: the collaborator's function named by the event, applied to the
recorded arguments. -/
def Event.run (env : Env W B O D E C PC NPC Ctx Meta H G R L OM PM CM Opt PGO PS)
    (s : LoadBalance G B Ctx R L OM PM CM Opt) :
    Event B O D E C PC NPC Ctx Meta H → W → W
  | .Pick b ctx network destination _, w => (env.Pick w b ctx network destination).2
  | .ReportFailure b picked, w => env.ReportFailure w b picked
  | .DialContext picked ctx network destination _ _, w =>
    (env.OutboundDialContext w picked ctx network destination).2
  | .ListenPacket picked ctx destination _ _, w =>
    (env.OutboundListenPacket w picked ctx destination).2
  | .ErrorContext ctx err, w => env.ErrorContext w s.logger ctx err
  | .NewConnection ctx dialer conn metadata onClose, w =>
    env.NewConnection w s.connection ctx dialer conn metadata onClose
  | .NewPacketConnection ctx dialer conn metadata onClose, w =>
    env.NewPacketConnection w s.connection ctx dialer conn metadata onClose
  | .HandlerNewConnectionEx handler ctx conn metadata onClose, w =>
    env.HandlerNewConnectionEx w handler ctx conn metadata onClose
  | .HandlerNewPacketConnectionEx handler ctx conn metadata onClose, w =>
    env.HandlerNewPacketConnectionEx w handler ctx conn metadata onClose
  | .InitProviders _, w => (env.InitProviders w s.GroupAdapter s.outbound s.provider).2
  | .BalancerNew _ _, w =>
    (env.BalancerNew w s.ctx s.router s.outbound (env.Providers s.GroupAdapter) s.options
      s.logger).2
  | .BalancerStart b _, w => (env.BalancerStart w b).2
  | .BalancerClose b _, w => (env.BalancerClose w b).2

/-- The results recorded by an event are the ones its call gives when the group whose struct
is `s` makes it in the world `w`. A call that returns nothing has nothing to agree on. -/
def Event.agrees (env : Env W B O D E C PC NPC Ctx Meta H G R L OM PM CM Opt PGO PS)
    (s : LoadBalance G B Ctx R L OM PM CM Opt) :
    Event B O D E C PC NPC Ctx Meta H → W → Prop
  | .Pick b ctx network destination picked, w =>
    (env.Pick w b ctx network destination).1 = picked
  | .DialContext picked ctx network destination conn err, w =>
    (env.OutboundDialContext w picked ctx network destination).1 = (conn, err)
  | .ListenPacket picked ctx destination conn err, w =>
    (env.OutboundListenPacket w picked ctx destination).1 = (conn, err)
  | .InitProviders err, w =>
    (env.InitProviders w s.GroupAdapter s.outbound s.provider).1.1 = err
  | .BalancerNew b err, w =>
    (env.BalancerNew w s.ctx s.router s.outbound (env.Providers s.GroupAdapter) s.options
      s.logger).1 = (b, err)
  | .BalancerStart b err, w => (env.BalancerStart w b).1 = err
  | .BalancerClose b err, w => (env.BalancerClose w b).1 = err
  | _, _ => True

/-- The world after the calls of a trace, made in order from the world `w` by a group whose
struct stays `s`. -/
def replay (env : Env W B O D E C PC NPC Ctx Meta H G R L OM PM CM Opt PGO PS)
    (s : LoadBalance G B Ctx R L OM PM CM Opt) :
    List (Event B O D E C PC NPC Ctx Meta H) → W → W
  | [], w => w
  | ev :: tr, w => replay env s tr (ev.run env s w)

/-- Every event of the trace records the results its call gives in the world reached by the
calls before it, starting from `w`. -/
def Faithful (env : Env W B O D E C PC NPC Ctx Meta H G R L OM PM CM Opt PGO PS)
    (s : LoadBalance G B Ctx R L OM PM CM Opt) :
    List (Event B O D E C PC NPC Ctx Meta H) → W → Prop
  | [], _ => True
  | ev :: tr, w => ev.agrees env s w ∧ Faithful env s tr (ev.run env s w)

end replaying

/-! ### A scripted world, to run the methods on examples -/

/-- A world that answers from a script: the results of the coming `Pick` calls and of the
coming backend attempts, the results of the lifecycle calls, and what the balancer has been
told through `ReportFailure`. -/
structure Script where
  pickResults : List (Option String)
  attemptResults : List (Option String × Option String)
  initProvidersErr : Option String
  balancerNewResult : Option Nat × Option String
  balancerStartErr : Option String
  balancerCloseErr : Option String
  reported : List String
  deriving DecidableEq, Repr

/-- The events of the scripted world: outbounds, destinations, errors and connections are
strings, the balancer pointer and the context are numbers. -/
abbrev ScriptEvent : Type :=
  Event Nat String String String String String String Nat String Unit

/-- The group struct of the scripted world. -/
abbrev ScriptGroup : Type :=
  LoadBalance Nat Nat Nat Unit Unit Unit Unit Unit Unit

/-- The collaborators of the scripted world. A `Pick` takes the next scripted result (nil when
the script is used up); a backend attempt takes the next scripted result (an error when used
up); an outbound whose tag is `"H"` implements both direct hand-off interfaces. -/
def scriptEnv : Env Script Nat String String String String String String Nat String Unit
    Nat Unit Unit Unit Unit Unit Unit Unit Unit where
  Pick := fun w _ _ _ _ => (w.pickResults.head?.join, { w with pickResults := w.pickResults.tail })
  ReportFailure := fun w _ o => { w with reported := w.reported ++ [o] }
  BalancerStart := fun w _ => (w.balancerStartErr, w)
  BalancerClose := fun w _ => (w.balancerCloseErr, w)
  BalancerNew := fun w _ _ _ _ _ _ => (w.balancerNewResult, w)
  TypeLoadBalance := "loadbalance"
  ProviderGroupCommonOption := fun _ => ()
  NewGroupAdapter := fun _ _ _ _ _ => 0
  InitProviders := fun w g _ _ => ((w.initProvidersErr, g + 1), w)
  Providers := fun _ => ()
  OutboundManagerFromContext := fun _ => ()
  ProviderManagerFromContext := fun _ => ()
  ConnectionManagerFromContext := fun _ => ()
  OutboundDialContext := fun w _ _ _ _ =>
    (w.attemptResults.head?.getD (none, some "script used up"),
      { w with attemptResults := w.attemptResults.tail })
  OutboundListenPacket := fun w _ _ _ =>
    (w.attemptResults.head?.getD (none, some "script used up"),
      { w with attemptResults := w.attemptResults.tail })
  IsConnectionHandlerEx := fun o => decide (o = "H")
  IsPacketConnectionHandlerEx := fun o => decide (o = "H")
  HandlerNewConnectionEx := fun w _ _ _ _ _ => w
  HandlerNewPacketConnectionEx := fun w _ _ _ _ _ => w
  ErrorContext := fun w _ _ _ => w
  NewConnection := fun w _ _ _ _ _ _ => w
  NewPacketConnection := fun w _ _ _ _ _ _ => w
  ContextWithIsExternalConnection := fun ctx => ctx + 1
  Destination := fun metadata => metadata

/-- The scripted world in which `Pick` returns nil on every call. -/
def emptyEnv : Env Script Nat String String String String String String Nat String Unit
    Nat Unit Unit Unit Unit Unit Unit Unit Unit :=
  { scriptEnv with Pick := fun w _ _ _ _ => (none, w) }

/-- A script with the given `Pick` and attempt results, lifecycle calls that all succeed, and
`balancer.New` returning the balancer `7`. -/
def script (pickResults : List (Option String))
    (attemptResults : List (Option String × Option String)) : Script :=
  { pickResults := pickResults
    attemptResults := attemptResults
    initProvidersErr := none
    balancerNewResult := (some 7, none)
    balancerStartErr := none
    balancerCloseErr := none
    reported := [] }

/-- A group of the scripted world that has been started: its balancer is `7`. -/
def startedGroup : ScriptGroup :=
  { (NewLoadBalance scriptEnv 0 () () "lb" () : ScriptGroup) with Balancer := some 7 }

/-- A group of the scripted world fresh from `NewLoadBalance`. -/
def freshGroup : ScriptGroup := NewLoadBalance scriptEnv 0 () () "lb" ()

/-- The strategy picks `A`, `A`, `B`; `A` fails twice, then `B` succeeds. -/
def scriptAAB : Script :=
  script [some "A", some "A", some "B"]
    [(none, some "e1"), (none, some "e2"), (some "connB", none)]

/-- The strategy picks `A`, then nothing; the attempt on `A` fails with `e1`. -/
def scriptFailThenNone : Script :=
  script [some "A", none] [(none, some "e1")]

/-- The strategy always has a candidate and every attempt fails, with `e1` to `e5`. -/
def scriptFiveFailures : Script :=
  script [some "A", some "B", some "C", some "A", some "B", some "C"]
    [(none, some "e1"), (none, some "e2"), (none, some "e3"), (none, some "e4"),
     (none, some "e5"), (none, some "e6")]

/-- The lifecycle calls succeed up to the strategy's start hook, which fails. -/
def scriptStartFails : Script :=
  { script [] [] with balancerStartErr := some "start failed" }

/-- Provider resolution fails. -/
def scriptInitFails : Script :=
  { script [] [] with initProvidersErr := some "no such provider" }

end group

/-! ## The in-memory provider -/

namespace provider

/-- The index after the loop of `NewMemory`, run from any starting map: a tag carried by some
outbound of the list maps to the last such outbound, any other tag is as in the starting
map. -/
theorem foldl_set_lookup {α : Type} (Tag : α → String) (tag : String) (os : List α)
    (m : GoMap α) :
    (os.foldl (fun tags outbound => tags.set (Tag outbound) outbound) m) tag =
      match (os.filter (fun o => decide (Tag o = tag))).getLast? with
      | some o => some o
      | none => m tag := by
  induction os using List.reverseRecOn with
  | nil => simp
  | append_singleton l a ih =>
    rw [List.foldl_append, List.filter_append]
    simp only [List.foldl_cons, List.foldl_nil, GoMap.set]
    by_cases h : Tag a = tag
    · simp [h]
    · have h' : ¬ tag = Tag a := fun e => h e.symm
      simp [h, h', ih]

/-- Claim C5. For every sequence of outbounds `os` and every tag, `NewMemory(os).Outbound(tag)`
reports found exactly when some element of `os` has that tag; the outbound it returns is the
last element of `os` with that tag (nil when there is none); and when no element has the tag
it returns nil and found = false. -/
theorem C5_memory_outbound_last_wins {α : Type} (Tag : α → String) (os : List α)
    (tag : String) :
    (((NewMemory Tag os).Outbound tag).2 = true ↔ ∃ o ∈ os, Tag o = tag) ∧
    ((NewMemory Tag os).Outbound tag).1 =
      (os.filter (fun o => decide (Tag o = tag))).getLast? ∧
    ((∀ o ∈ os, Tag o ≠ tag) → (NewMemory Tag os).Outbound tag = (none, false)) := by
  have key := foldl_set_lookup Tag tag os (GoMap.make α)
  have hval : ((NewMemory Tag os).Outbound tag).1 =
      (os.filter (fun o => decide (Tag o = tag))).getLast? := by
    simp only [Memory.Outbound, NewMemory, GoMap.lookup]
    rw [key]
    cases (os.filter (fun o => decide (Tag o = tag))).getLast? <;> simp [GoMap.make]
  have hfound : ((NewMemory Tag os).Outbound tag).2 =
      ((os.filter (fun o => decide (Tag o = tag))).getLast?).isSome := by
    simp only [Memory.Outbound, NewMemory, GoMap.lookup]
    rw [key]
    cases (os.filter (fun o => decide (Tag o = tag))).getLast? <;> simp [GoMap.make]
  have hsome : ((os.filter (fun o => decide (Tag o = tag))).getLast?).isSome = true ↔
      ∃ o ∈ os, Tag o = tag := by
    rw [List.getLast?_isSome]
    constructor
    · intro hne
      obtain ⟨o, ho⟩ := List.exists_mem_of_ne_nil _ hne
      rw [List.mem_filter] at ho
      exact ⟨o, ho.1, by simpa using ho.2⟩
    · rintro ⟨o, ho, ht⟩
      apply List.ne_nil_of_mem
      rw [List.mem_filter]
      exact ⟨ho, by simpa using ht⟩
  refine ⟨?_, hval, ?_⟩
  · rw [hfound, hsome]
  · intro hno
    have hnone : ((os.filter (fun o => decide (Tag o = tag))).getLast?).isSome = false := by
      cases hb : ((os.filter (fun o => decide (Tag o = tag))).getLast?).isSome
      · rfl
      · obtain ⟨o, ho, ht⟩ := hsome.mp hb
        exact absurd ht (hno o ho)
    apply Prod.ext
    · rw [hval]
      cases hg : (os.filter (fun o => decide (Tag o = tag))).getLast?
      · rfl
      · rw [hg] at hnone; simp at hnone
    · rw [hfound, hnone]

end provider

/-! ## The load-balance group: dispatch -/

namespace group

/-- Splitting a list at an element that is not its head leaves the head in the first part. -/
theorem split_after_head {α : Type} {pre post l : List α} {x a : α}
    (h : pre ++ x :: post = a :: l) (hne : x ≠ a) :
    ∃ pre', pre = a :: pre' ∧ pre' ++ x :: post = l := by
  cases pre with
  | nil =>
    simp only [List.nil_append, List.cons.injEq] at h
    exact absurd h.1 hne
  | cons b pre' =>
    simp only [List.cons_append, List.cons.injEq] at h
    exact ⟨pre', by rw [h.1], h.2⟩

/-- The error kept in `lastErr` after a failure followed by further failures: that of the
last of them all, whatever `lastErr` was before. -/
theorem last_failure_cons {E : Type} (e : E) (fs : List E) (lastErr : Option (Error E)) :
    (match (e :: fs).getLast? with
      | some x => some (Error.upstream x)
      | none => lastErr) =
    (match fs.getLast? with
      | some x => some (Error.upstream x)
      | none => some (Error.upstream e)) := by
  cases fs with
  | nil => rfl
  | cons f fs =>
    rw [List.getLast?_cons_cons]
    obtain ⟨x, hx⟩ := Option.isSome_iff_exists.mp
      (List.getLast?_isSome.mpr (List.cons_ne_nil f fs))
    rw [hx]

section dispatch

variable {W B O D E C PC NPC Ctx Meta H G R L OM PM CM Opt PGO PS : Type}

/-- The loop of `DialContext` with `n` iterations allowed makes at most `n` attempts. -/
theorem DialContext_loop_attempts_le
    (env : Env W B O D E C PC NPC Ctx Meta H G R L OM PM CM Opt PGO PS)
    (s : LoadBalance G B Ctx R L OM PM CM Opt) (ctx : Ctx) (network : String) (destination : D)
    (n : Nat) : ∀ (lastErr : Option (Error E)) (w : W),
      attempts (DialContext.loop env s ctx network destination n lastErr w).trace ≤ n := by
  induction n with
  | zero => intro lastErr w; simp [DialContext.loop, attempts]
  | succ n ih =>
    intro lastErr w
    simp only [DialContext.loop]
    split
    · simp [attempts, Event.isAttempt]
    · split
      · simp [attempts, Event.isAttempt]
      · simp only [attempts, List.filter_cons, Event.isAttempt, List.length_cons]
        simp only [Bool.false_eq_true, if_false, if_true, List.length_cons]
        exact Nat.succ_le_succ (ih _ _)

/-- In the loop of `DialContext`, a dial that returns a nil error is the last call made, and
the loop returns its connection with a nil error. -/
theorem DialContext_loop_success_last
    (env : Env W B O D E C PC NPC Ctx Meta H G R L OM PM CM Opt PGO PS)
    (s : LoadBalance G B Ctx R L OM PM CM Opt) (ctx : Ctx) (network : String) (destination : D)
    (n : Nat) : ∀ (lastErr : Option (Error E)) (w : W)
      (pre post : List (Event B O D E C PC NPC Ctx Meta H)) (o : O) (c : Ctx) (nw : String)
      (d : D) (conn : Option C),
      (DialContext.loop env s ctx network destination n lastErr w).trace =
        pre ++ Event.DialContext o c nw d conn none :: post →
      post = [] ∧
        (DialContext.loop env s ctx network destination n lastErr w).val = (conn, none) := by
  induction n with
  | zero =>
    intro lastErr w pre post o c nw d conn h
    simp [DialContext.loop] at h
  | succ n ih =>
    intro lastErr w pre post o c nw d conn h
    simp only [DialContext.loop] at h ⊢
    split at h
    · obtain ⟨pre1, _, h1⟩ := split_after_head h.symm (by intro e; cases e)
      simp at h1
    · split at h
      · rename_i hp _ hd
        obtain ⟨pre1, _, h1⟩ := split_after_head h.symm (by intro e; cases e)
        cases pre1 with
        | nil =>
          simp only [List.nil_append, List.cons.injEq] at h1
          obtain ⟨h2, h3⟩ := h1
          simp only [Event.DialContext.injEq] at h2
          simp only [hp, hd]
          exact ⟨h3, by rw [h2.2.2.2.2.1]⟩
        | cons b pre2 =>
          simp at h1
      · rename_i hp _ err hd
        obtain ⟨pre1, _, h1⟩ := split_after_head h.symm (by intro e; cases e)
        obtain ⟨pre2, _, h2⟩ := split_after_head h1 (by intro e; cases e)
        obtain ⟨pre3, _, h3⟩ := split_after_head h2 (by intro e; cases e)
        obtain ⟨pre4, _, h4⟩ := split_after_head h3 (by intro e; cases e)
        simp only [hp, hd]
        exact ih _ _ pre4 post o c nw d conn h4.symm

/-- The loop of `DialContext` leaves the world that its recorded calls produce, made in order
on the collaborators, and each recorded result is the one the collaborator gave. -/
theorem DialContext_loop_replay
    (env : Env W B O D E C PC NPC Ctx Meta H G R L OM PM CM Opt PGO PS)
    (s : LoadBalance G B Ctx R L OM PM CM Opt) (ctx : Ctx) (network : String) (destination : D)
    (n : Nat) : ∀ (lastErr : Option (Error E)) (w : W),
      (DialContext.loop env s ctx network destination n lastErr w).world =
        replay env s (DialContext.loop env s ctx network destination n lastErr w).trace w ∧
      Faithful env s (DialContext.loop env s ctx network destination n lastErr w).trace w := by
  induction n with
  | zero => intro lastErr w; simp [DialContext.loop, replay, Faithful]
  | succ n ih =>
    intro lastErr w
    simp only [DialContext.loop]
    split
    · rename_i hp
      simp [replay, Faithful, Event.run, Event.agrees, hp]
    · split
      · rename_i hp _ hd
        simp only [replay, Faithful, Event.run, Event.agrees, hp, and_true, true_and]
        exact Prod.ext rfl hd
      · rename_i hp _ err hd
        simp only [replay, Faithful, Event.run, Event.agrees, hp, true_and]
        exact ⟨(ih _ _).1, Prod.ext rfl hd, (ih _ _).2⟩

/-- In the loop of `DialContext`, the candidates reported as failed are the candidates of the
failed dials, in the same order. -/
theorem DialContext_loop_reports
    (env : Env W B O D E C PC NPC Ctx Meta H G R L OM PM CM Opt PGO PS)
    (s : LoadBalance G B Ctx R L OM PM CM Opt) (ctx : Ctx) (network : String) (destination : D)
    (n : Nat) : ∀ (lastErr : Option (Error E)) (w : W),
      reports (DialContext.loop env s ctx network destination n lastErr w).trace =
        failedCandidates (DialContext.loop env s ctx network destination n lastErr w).trace := by
  induction n with
  | zero => intro lastErr w; simp [DialContext.loop, reports, failedCandidates]
  | succ n ih =>
    intro lastErr w
    simp only [DialContext.loop]
    split
    · simp [reports, failedCandidates, Event.reported?, Event.failedCandidate?]
    · split
      · simp [reports, failedCandidates, Event.reported?, Event.failedCandidate?]
      · simp only [reports, failedCandidates, List.filterMap_cons, Event.reported?,
          Event.failedCandidate?]
        exact congrArg _ (ih _ _)

/-- How the loop of `DialContext` with `n` iterations allowed ends: with a successful dial as
its last call, returning that dial's connection, after fewer than `n` failed attempts; or with
a `Pick` that returned nil, after fewer than `n` attempts, returning the no-outbound error; or
after `n` failed attempts and no nil `Pick`, returning the error of the last failed attempt
(the incoming `lastErr` when `n = 0`). -/
theorem DialContext_loop_outcome
    (env : Env W B O D E C PC NPC Ctx Meta H G R L OM PM CM Opt PGO PS)
    (s : LoadBalance G B Ctx R L OM PM CM Opt) (ctx : Ctx) (network : String) (destination : D)
    (n : Nat) : ∀ (lastErr : Option (Error E)) (w : W),
      ((∃ pre o conn, (DialContext.loop env s ctx network destination n lastErr w).trace =
            pre ++ [Event.DialContext o ctx network destination conn none] ∧
          (DialContext.loop env s ctx network destination n lastErr w).val = (conn, none)) ∧
        (failures (DialContext.loop env s ctx network destination n lastErr w).trace).length
          < n) ∨
      ((∃ pre, (DialContext.loop env s ctx network destination n lastErr w).trace =
          pre ++ [Event.Pick s.Balancer ctx network destination none]) ∧
        attempts (DialContext.loop env s ctx network destination n lastErr w).trace < n ∧
        (failures (DialContext.loop env s ctx network destination n lastErr w).trace).length
          < n ∧
        (DialContext.loop env s ctx network destination n lastErr w).val =
          (none, some (Error.New "no outbound available"))) ∨
      (attempts (DialContext.loop env s ctx network destination n lastErr w).trace = n ∧
        (failures (DialContext.loop env s ctx network destination n lastErr w).trace).length
          = n ∧
        (∀ ev ∈ (DialContext.loop env s ctx network destination n lastErr w).trace,
          ev.isPickNone = false) ∧
        (DialContext.loop env s ctx network destination n lastErr w).val =
          (none,
            match (failures
              (DialContext.loop env s ctx network destination n lastErr w).trace).getLast? with
            | some e => some (Error.upstream e)
            | none => lastErr)) := by
  induction n with
  | zero =>
    intro lastErr w
    right; right
    simp [DialContext.loop, attempts, failures]
  | succ n ih =>
    intro lastErr w
    simp only [DialContext.loop]
    split
    · right; left
      exact ⟨⟨[], rfl⟩, by simp [attempts, Event.isAttempt],
        by simp [failures, Event.failure?], rfl⟩
    · split
      · left
        exact ⟨⟨[_], _, _, rfl, rfl⟩, by simp [failures, Event.failure?]⟩
      · rename_i err _
        rcases ih (some (Error.upstream err)) _ with
          ⟨⟨pre, o, conn, hpre, hval⟩, hlt⟩ | ⟨⟨pre, hpre⟩, hlt, hflt, hval⟩ |
          ⟨hatt, hfail, hpick, hval⟩
        · left
          refine ⟨?_, ?_⟩
          · rw [hpre]
            exact ⟨_ :: _ :: _ :: _ :: pre, o, conn, rfl, hval⟩
          · simp only [failures, List.filterMap_cons, Event.failure?, List.length_cons]
            exact Nat.succ_lt_succ hlt
        · right; left
          refine ⟨?_, ?_, ?_, hval⟩
          · rw [hpre]
            exact ⟨_ :: _ :: _ :: _ :: pre, rfl⟩
          · simp only [attempts, List.filter_cons, Event.isAttempt, List.length_cons]
            simp only [Bool.false_eq_true, if_false, if_true, List.length_cons]
            exact Nat.succ_lt_succ hlt
          · simp only [failures, List.filterMap_cons, Event.failure?, List.length_cons]
            exact Nat.succ_lt_succ hflt
        · right; right
          refine ⟨?_, ?_, ?_, ?_⟩
          · simp only [attempts, List.filter_cons, Event.isAttempt, List.length_cons]
            simp only [Bool.false_eq_true, if_false, if_true, List.length_cons]
            exact congrArg Nat.succ hatt
          · simp only [failures, List.filterMap_cons, Event.failure?, List.length_cons]
            exact congrArg Nat.succ hfail
          · intro ev hev
            simp only [List.mem_cons] at hev
            rcases hev with rfl | rfl | rfl | rfl | hev
            · rfl
            · rfl
            · rfl
            · rfl
            · exact hpick ev hev
          · rw [hval]
            simp only [failures, List.filterMap_cons, Event.failure?]
            exact congrArg _ (last_failure_cons err _ lastErr).symm

/-- The loop of `ListenPacket` with `n` iterations allowed makes at most `n` attempts. -/
theorem ListenPacket_loop_attempts_le
    (env : Env W B O D E C PC NPC Ctx Meta H G R L OM PM CM Opt PGO PS)
    (s : LoadBalance G B Ctx R L OM PM CM Opt) (ctx : Ctx) (destination : D)
    (n : Nat) : ∀ (lastErr : Option (Error E)) (w : W),
      attempts (ListenPacket.loop env s ctx destination n lastErr w).trace ≤ n := by
  induction n with
  | zero => intro lastErr w; simp [ListenPacket.loop, attempts]
  | succ n ih =>
    intro lastErr w
    simp only [ListenPacket.loop]
    split
    · simp [attempts, Event.isAttempt]
    · split
      · simp [attempts, Event.isAttempt]
      · simp only [attempts, List.filter_cons, Event.isAttempt, List.length_cons]
        simp only [Bool.false_eq_true, if_false, if_true, List.length_cons]
        exact Nat.succ_le_succ (ih _ _)

/-- In the loop of `ListenPacket`, a listen that returns a nil error is the last call made, and
the loop returns its connection with a nil error. -/
theorem ListenPacket_loop_success_last
    (env : Env W B O D E C PC NPC Ctx Meta H G R L OM PM CM Opt PGO PS)
    (s : LoadBalance G B Ctx R L OM PM CM Opt) (ctx : Ctx) (destination : D)
    (n : Nat) : ∀ (lastErr : Option (Error E)) (w : W)
      (pre post : List (Event B O D E C PC NPC Ctx Meta H)) (o : O) (c : Ctx)
      (d : D) (conn : Option PC),
      (ListenPacket.loop env s ctx destination n lastErr w).trace =
        pre ++ Event.ListenPacket o c d conn none :: post →
      post = [] ∧
        (ListenPacket.loop env s ctx destination n lastErr w).val = (conn, none) := by
  induction n with
  | zero =>
    intro lastErr w pre post o c d conn h
    simp [ListenPacket.loop] at h
  | succ n ih =>
    intro lastErr w pre post o c d conn h
    simp only [ListenPacket.loop] at h ⊢
    split at h
    · obtain ⟨pre1, _, h1⟩ := split_after_head h.symm (by intro e; cases e)
      simp at h1
    · split at h
      · rename_i hp _ hd
        obtain ⟨pre1, _, h1⟩ := split_after_head h.symm (by intro e; cases e)
        cases pre1 with
        | nil =>
          simp only [List.nil_append, List.cons.injEq] at h1
          obtain ⟨h2, h3⟩ := h1
          simp only [Event.ListenPacket.injEq] at h2
          simp only [hp, hd]
          exact ⟨h3, by rw [h2.2.2.2.1]⟩
        | cons b pre2 =>
          simp at h1
      · rename_i hp _ err hd
        obtain ⟨pre1, _, h1⟩ := split_after_head h.symm (by intro e; cases e)
        obtain ⟨pre2, _, h2⟩ := split_after_head h1 (by intro e; cases e)
        obtain ⟨pre3, _, h3⟩ := split_after_head h2 (by intro e; cases e)
        obtain ⟨pre4, _, h4⟩ := split_after_head h3 (by intro e; cases e)
        simp only [hp, hd]
        exact ih _ _ pre4 post o c d conn h4.symm

/-- The loop of `ListenPacket` leaves the world that its recorded calls produce, made in order
on the collaborators, and each recorded result is the one the collaborator gave. -/
theorem ListenPacket_loop_replay
    (env : Env W B O D E C PC NPC Ctx Meta H G R L OM PM CM Opt PGO PS)
    (s : LoadBalance G B Ctx R L OM PM CM Opt) (ctx : Ctx) (destination : D)
    (n : Nat) : ∀ (lastErr : Option (Error E)) (w : W),
      (ListenPacket.loop env s ctx destination n lastErr w).world =
        replay env s (ListenPacket.loop env s ctx destination n lastErr w).trace w ∧
      Faithful env s (ListenPacket.loop env s ctx destination n lastErr w).trace w := by
  induction n with
  | zero => intro lastErr w; simp [ListenPacket.loop, replay, Faithful]
  | succ n ih =>
    intro lastErr w
    simp only [ListenPacket.loop]
    split
    · rename_i hp
      simp [replay, Faithful, Event.run, Event.agrees, hp]
    · split
      · rename_i hp _ hd
        simp only [replay, Faithful, Event.run, Event.agrees, hp, and_true, true_and]
        exact Prod.ext rfl hd
      · rename_i hp _ err hd
        simp only [replay, Faithful, Event.run, Event.agrees, hp, true_and]
        exact ⟨(ih _ _).1, Prod.ext rfl hd, (ih _ _).2⟩

/-- In the loop of `ListenPacket`, the candidates reported as failed are the candidates of the
failed listens, in the same order. -/
theorem ListenPacket_loop_reports
    (env : Env W B O D E C PC NPC Ctx Meta H G R L OM PM CM Opt PGO PS)
    (s : LoadBalance G B Ctx R L OM PM CM Opt) (ctx : Ctx) (destination : D)
    (n : Nat) : ∀ (lastErr : Option (Error E)) (w : W),
      reports (ListenPacket.loop env s ctx destination n lastErr w).trace =
        failedCandidates (ListenPacket.loop env s ctx destination n lastErr w).trace := by
  induction n with
  | zero => intro lastErr w; simp [ListenPacket.loop, reports, failedCandidates]
  | succ n ih =>
    intro lastErr w
    simp only [ListenPacket.loop]
    split
    · simp [reports, failedCandidates, Event.reported?, Event.failedCandidate?]
    · split
      · simp [reports, failedCandidates, Event.reported?, Event.failedCandidate?]
      · simp only [reports, failedCandidates, List.filterMap_cons, Event.reported?,
          Event.failedCandidate?]
        exact congrArg _ (ih _ _)

/-- How the loop of `ListenPacket` with `n` iterations allowed ends: with a successful listen as
its last call, returning that listen's connection, after fewer than `n` failed attempts; or with
a `Pick` that returned nil, after fewer than `n` attempts, returning the no-outbound error; or
after `n` failed attempts and no nil `Pick`, returning the error of the last failed attempt
(the incoming `lastErr` when `n = 0`). -/
theorem ListenPacket_loop_outcome
    (env : Env W B O D E C PC NPC Ctx Meta H G R L OM PM CM Opt PGO PS)
    (s : LoadBalance G B Ctx R L OM PM CM Opt) (ctx : Ctx) (destination : D)
    (n : Nat) : ∀ (lastErr : Option (Error E)) (w : W),
      ((∃ pre o conn, (ListenPacket.loop env s ctx destination n lastErr w).trace =
            pre ++ [Event.ListenPacket o ctx destination conn none] ∧
          (ListenPacket.loop env s ctx destination n lastErr w).val = (conn, none)) ∧
        (failures (ListenPacket.loop env s ctx destination n lastErr w).trace).length
          < n) ∨
      ((∃ pre, (ListenPacket.loop env s ctx destination n lastErr w).trace =
          pre ++ [Event.Pick s.Balancer ctx NetworkUDP destination none]) ∧
        attempts (ListenPacket.loop env s ctx destination n lastErr w).trace < n ∧
        (failures (ListenPacket.loop env s ctx destination n lastErr w).trace).length
          < n ∧
        (ListenPacket.loop env s ctx destination n lastErr w).val =
          (none, some (Error.New "no outbound available"))) ∨
      (attempts (ListenPacket.loop env s ctx destination n lastErr w).trace = n ∧
        (failures (ListenPacket.loop env s ctx destination n lastErr w).trace).length
          = n ∧
        (∀ ev ∈ (ListenPacket.loop env s ctx destination n lastErr w).trace,
          ev.isPickNone = false) ∧
        (ListenPacket.loop env s ctx destination n lastErr w).val =
          (none,
            match (failures
              (ListenPacket.loop env s ctx destination n lastErr w).trace).getLast? with
            | some e => some (Error.upstream e)
            | none => lastErr)) := by
  induction n with
  | zero =>
    intro lastErr w
    right; right
    simp [ListenPacket.loop, attempts, failures]
  | succ n ih =>
    intro lastErr w
    simp only [ListenPacket.loop]
    split
    · right; left
      exact ⟨⟨[], rfl⟩, by simp [attempts, Event.isAttempt],
        by simp [failures, Event.failure?], rfl⟩
    · split
      · left
        exact ⟨⟨[_], _, _, rfl, rfl⟩, by simp [failures, Event.failure?]⟩
      · rename_i err _
        rcases ih (some (Error.upstream err)) _ with
          ⟨⟨pre, o, conn, hpre, hval⟩, hlt⟩ | ⟨⟨pre, hpre⟩, hlt, hflt, hval⟩ |
          ⟨hatt, hfail, hpick, hval⟩
        · left
          refine ⟨?_, ?_⟩
          · rw [hpre]
            exact ⟨_ :: _ :: _ :: _ :: pre, o, conn, rfl, hval⟩
          · simp only [failures, List.filterMap_cons, Event.failure?, List.length_cons]
            exact Nat.succ_lt_succ hlt
        · right; left
          refine ⟨?_, ?_, ?_, hval⟩
          · rw [hpre]
            exact ⟨_ :: _ :: _ :: _ :: pre, rfl⟩
          · simp only [attempts, List.filter_cons, Event.isAttempt, List.length_cons]
            simp only [Bool.false_eq_true, if_false, if_true, List.length_cons]
            exact Nat.succ_lt_succ hlt
          · simp only [failures, List.filterMap_cons, Event.failure?, List.length_cons]
            exact Nat.succ_lt_succ hflt
        · right; right
          refine ⟨?_, ?_, ?_, ?_⟩
          · simp only [attempts, List.filter_cons, Event.isAttempt, List.length_cons]
            simp only [Bool.false_eq_true, if_false, if_true, List.length_cons]
            exact congrArg Nat.succ hatt
          · simp only [failures, List.filterMap_cons, Event.failure?, List.length_cons]
            exact congrArg Nat.succ hfail
          · intro ev hev
            simp only [List.mem_cons] at hev
            rcases hev with rfl | rfl | rfl | rfl | hev
            · rfl
            · rfl
            · rfl
            · rfl
            · exact hpick ev hev
          · rw [hval]
            simp only [failures, List.filterMap_cons, Event.failure?]
            exact congrArg _ (last_failure_cons err _ lastErr).symm

/-- How a call of `DialContext` ends, in all cases. Its last call is a successful dial and it
returns that dial's connection with a nil error; or its last call is a `Pick` that returned
nil, after fewer than 5 attempts, and it returns the error "no outbound available"; or it made
5 attempts, all failed, no `Pick` returned nil, and it returns the error of the last failed
attempt. Hence 5 failed attempts always give the error of the fifth, and a nil `Pick` as last
call always gives the no-outbound error. -/
theorem DialContext_outcome
    (env : Env W B O D E C PC NPC Ctx Meta H G R L OM PM CM Opt PGO PS)
    (s : LoadBalance G B Ctx R L OM PM CM Opt) (w : W) (ctx : Ctx) (network : String)
    (destination : D) :
    (((∃ pre o conn, (DialContext env s w ctx network destination).trace =
            pre ++ [Event.DialContext o ctx network destination conn none] ∧
          (DialContext env s w ctx network destination).val = (conn, none)) ∧
        (failures (DialContext env s w ctx network destination).trace).length < 5) ∨
      ((∃ pre, (DialContext env s w ctx network destination).trace =
            pre ++ [Event.Pick s.Balancer ctx network destination none]) ∧
        attempts (DialContext env s w ctx network destination).trace < 5 ∧
        (failures (DialContext env s w ctx network destination).trace).length < 5 ∧
        (DialContext env s w ctx network destination).val =
          (none, some (Error.New "no outbound available"))) ∨
      (attempts (DialContext env s w ctx network destination).trace = 5 ∧
        (failures (DialContext env s w ctx network destination).trace).length = 5 ∧
        (∀ ev ∈ (DialContext env s w ctx network destination).trace, ev.isPickNone = false) ∧
        ∃ e, (failures (DialContext env s w ctx network destination).trace).getLast?
            = some e ∧
          (DialContext env s w ctx network destination).val
            = (none, some (Error.upstream e)))) ∧
    ((failures (DialContext env s w ctx network destination).trace).length = 5 →
      ∃ e, (failures (DialContext env s w ctx network destination).trace).getLast? = some e ∧
        (DialContext env s w ctx network destination).val
          = (none, some (Error.upstream e))) ∧
    (∀ (b : Option B) (c : Ctx) (nw : String) (d : D),
      (DialContext env s w ctx network destination).trace.getLast?
        = some (Event.Pick b c nw d none) →
      (DialContext env s w ctx network destination).val =
        (none, some (Error.New "no outbound available"))) := by
  have key : ((∃ pre o conn, (DialContext env s w ctx network destination).trace =
            pre ++ [Event.DialContext o ctx network destination conn none] ∧
          (DialContext env s w ctx network destination).val = (conn, none)) ∧
        (failures (DialContext env s w ctx network destination).trace).length < 5) ∨
      ((∃ pre, (DialContext env s w ctx network destination).trace =
            pre ++ [Event.Pick s.Balancer ctx network destination none]) ∧
        attempts (DialContext env s w ctx network destination).trace < 5 ∧
        (failures (DialContext env s w ctx network destination).trace).length < 5 ∧
        (DialContext env s w ctx network destination).val =
          (none, some (Error.New "no outbound available"))) ∨
      (attempts (DialContext env s w ctx network destination).trace = 5 ∧
        (failures (DialContext env s w ctx network destination).trace).length = 5 ∧
        (∀ ev ∈ (DialContext env s w ctx network destination).trace, ev.isPickNone = false) ∧
        ∃ e, (failures (DialContext env s w ctx network destination).trace).getLast?
            = some e ∧
          (DialContext env s w ctx network destination).val
            = (none, some (Error.upstream e))) := by
    rcases DialContext_loop_outcome env s ctx network destination maxRetry none w with
      h | h | ⟨hatt, hfail, hpick, hval⟩
    · exact Or.inl h
    · exact Or.inr (Or.inl h)
    · right; right
      refine ⟨hatt, hfail, hpick, ?_⟩
      obtain ⟨e, he⟩ := Option.isSome_iff_exists.mp
        (List.getLast?_isSome.mpr (List.ne_nil_of_length_pos (by rw [hfail]; decide)))
      refine ⟨e, he, ?_⟩
      rw [he] at hval
      exact hval
  refine ⟨key, ?_, ?_⟩
  · intro h5
    rcases key with ⟨_, hlt⟩ | ⟨_, _, hlt, _⟩ | ⟨_, _, _, he⟩
    · rw [h5] at hlt
      exact absurd hlt (by decide)
    · rw [h5] at hlt
      exact absurd hlt (by decide)
    · exact he
  · intro b c nw d hlast
    rcases key with ⟨⟨pre, o, conn, hpre, _⟩, _⟩ | ⟨_, _, _, hval⟩ | ⟨_, _, hpick, _⟩
    · rw [hpre, List.getLast?_concat] at hlast
      cases hlast
    · exact hval
    · have hmem := List.mem_of_getLast?_eq_some hlast
      have := hpick _ hmem
      simp [Event.isPickNone] at this

/-- How a call of `ListenPacket` ends, in all cases. Its last call is a successful listen and it
returns that listen's connection with a nil error; or its last call is a `Pick` that returned
nil, after fewer than 5 attempts, and it returns the error "no outbound available"; or it made
5 attempts, all failed, no `Pick` returned nil, and it returns the error of the last failed
attempt. Hence 5 failed attempts always give the error of the fifth, and a nil `Pick` as last
call always gives the no-outbound error. -/
theorem ListenPacket_outcome
    (env : Env W B O D E C PC NPC Ctx Meta H G R L OM PM CM Opt PGO PS)
    (s : LoadBalance G B Ctx R L OM PM CM Opt) (w : W) (ctx : Ctx) (destination : D) :
    (((∃ pre o conn, (ListenPacket env s w ctx destination).trace =
            pre ++ [Event.ListenPacket o ctx destination conn none] ∧
          (ListenPacket env s w ctx destination).val = (conn, none)) ∧
        (failures (ListenPacket env s w ctx destination).trace).length < 5) ∨
      ((∃ pre, (ListenPacket env s w ctx destination).trace =
            pre ++ [Event.Pick s.Balancer ctx NetworkUDP destination none]) ∧
        attempts (ListenPacket env s w ctx destination).trace < 5 ∧
        (failures (ListenPacket env s w ctx destination).trace).length < 5 ∧
        (ListenPacket env s w ctx destination).val =
          (none, some (Error.New "no outbound available"))) ∨
      (attempts (ListenPacket env s w ctx destination).trace = 5 ∧
        (failures (ListenPacket env s w ctx destination).trace).length = 5 ∧
        (∀ ev ∈ (ListenPacket env s w ctx destination).trace, ev.isPickNone = false) ∧
        ∃ e, (failures (ListenPacket env s w ctx destination).trace).getLast?
            = some e ∧
          (ListenPacket env s w ctx destination).val
            = (none, some (Error.upstream e)))) ∧
    ((failures (ListenPacket env s w ctx destination).trace).length = 5 →
      ∃ e, (failures (ListenPacket env s w ctx destination).trace).getLast? = some e ∧
        (ListenPacket env s w ctx destination).val
          = (none, some (Error.upstream e))) ∧
    (∀ (b : Option B) (c : Ctx) (nw : String) (d : D),
      (ListenPacket env s w ctx destination).trace.getLast?
        = some (Event.Pick b c nw d none) →
      (ListenPacket env s w ctx destination).val =
        (none, some (Error.New "no outbound available"))) := by
  have key : ((∃ pre o conn, (ListenPacket env s w ctx destination).trace =
            pre ++ [Event.ListenPacket o ctx destination conn none] ∧
          (ListenPacket env s w ctx destination).val = (conn, none)) ∧
        (failures (ListenPacket env s w ctx destination).trace).length < 5) ∨
      ((∃ pre, (ListenPacket env s w ctx destination).trace =
            pre ++ [Event.Pick s.Balancer ctx NetworkUDP destination none]) ∧
        attempts (ListenPacket env s w ctx destination).trace < 5 ∧
        (failures (ListenPacket env s w ctx destination).trace).length < 5 ∧
        (ListenPacket env s w ctx destination).val =
          (none, some (Error.New "no outbound available"))) ∨
      (attempts (ListenPacket env s w ctx destination).trace = 5 ∧
        (failures (ListenPacket env s w ctx destination).trace).length = 5 ∧
        (∀ ev ∈ (ListenPacket env s w ctx destination).trace, ev.isPickNone = false) ∧
        ∃ e, (failures (ListenPacket env s w ctx destination).trace).getLast?
            = some e ∧
          (ListenPacket env s w ctx destination).val
            = (none, some (Error.upstream e))) := by
    rcases ListenPacket_loop_outcome env s ctx destination maxRetry none w with
      h | h | ⟨hatt, hfail, hpick, hval⟩
    · exact Or.inl h
    · exact Or.inr (Or.inl h)
    · right; right
      refine ⟨hatt, hfail, hpick, ?_⟩
      obtain ⟨e, he⟩ := Option.isSome_iff_exists.mp
        (List.getLast?_isSome.mpr (List.ne_nil_of_length_pos (by rw [hfail]; decide)))
      refine ⟨e, he, ?_⟩
      rw [he] at hval
      exact hval
  refine ⟨key, ?_, ?_⟩
  · intro h5
    rcases key with ⟨_, hlt⟩ | ⟨_, _, hlt, _⟩ | ⟨_, _, _, he⟩
    · rw [h5] at hlt
      exact absurd hlt (by decide)
    · rw [h5] at hlt
      exact absurd hlt (by decide)
    · exact he
  · intro b c nw d hlast
    rcases key with ⟨⟨pre, o, conn, hpre, _⟩, _⟩ | ⟨_, _, _, hval⟩ | ⟨_, _, hpick, _⟩
    · rw [hpre, List.getLast?_concat] at hlast
      cases hlast
    · exact hval
    · have hmem := List.mem_of_getLast?_eq_some hlast
      have := hpick _ hmem
      simp [Event.isPickNone] at this

/-- Claim C1. A single call of `DialContext`, and likewise of `ListenPacket`, makes at most 5
backend attempts, whatever the strategy and the backends do; and an attempt that returns a nil
error is the last call the method makes (no later `Pick`, attempt or `ReportFailure`), the
method returning that attempt's connection with a nil error. -/
theorem C1_dispatch_bounded_first_success
    (env : Env W B O D E C PC NPC Ctx Meta H G R L OM PM CM Opt PGO PS)
    (s : LoadBalance G B Ctx R L OM PM CM Opt) (w : W) (ctx : Ctx) (network : String)
    (destination : D) :
    (attempts (DialContext env s w ctx network destination).trace ≤ 5 ∧
      ∀ (pre post : List (Event B O D E C PC NPC Ctx Meta H)) (o : O) (c : Ctx) (nw : String)
        (d : D) (conn : Option C),
        (DialContext env s w ctx network destination).trace =
          pre ++ Event.DialContext o c nw d conn none :: post →
        post = [] ∧ (DialContext env s w ctx network destination).val = (conn, none)) ∧
    (attempts (ListenPacket env s w ctx destination).trace ≤ 5 ∧
      ∀ (pre post : List (Event B O D E C PC NPC Ctx Meta H)) (o : O) (c : Ctx)
        (d : D) (conn : Option PC),
        (ListenPacket env s w ctx destination).trace =
          pre ++ Event.ListenPacket o c d conn none :: post →
        post = [] ∧ (ListenPacket env s w ctx destination).val = (conn, none)) :=
  ⟨⟨DialContext_loop_attempts_le env s ctx network destination maxRetry none w,
     DialContext_loop_success_last env s ctx network destination maxRetry none w⟩,
   ⟨ListenPacket_loop_attempts_le env s ctx destination maxRetry none w,
     ListenPacket_loop_success_last env s ctx destination maxRetry none w⟩⟩

/-- Claim C2. In a single call of `DialContext` or of `ListenPacket`, the candidates passed to
`ReportFailure` are, in order and in number, the picked candidates whose attempt returned an
error. The recorded calls are the calls made: the world the method leaves is the one obtained
by applying, in order, the collaborator function of each recorded call to its recorded
arguments (`Balancer.ReportFailure` for each report), and every recorded result is the one the
collaborator returned. -/
theorem C2_reports_are_failed_candidates
    (env : Env W B O D E C PC NPC Ctx Meta H G R L OM PM CM Opt PGO PS)
    (s : LoadBalance G B Ctx R L OM PM CM Opt) (w : W) (ctx : Ctx) (network : String)
    (destination : D) :
    (reports (DialContext env s w ctx network destination).trace =
        failedCandidates (DialContext env s w ctx network destination).trace ∧
      (DialContext env s w ctx network destination).world =
        replay env s (DialContext env s w ctx network destination).trace w ∧
      Faithful env s (DialContext env s w ctx network destination).trace w) ∧
    (reports (ListenPacket env s w ctx destination).trace =
        failedCandidates (ListenPacket env s w ctx destination).trace ∧
      (ListenPacket env s w ctx destination).world =
        replay env s (ListenPacket env s w ctx destination).trace w ∧
      Faithful env s (ListenPacket env s w ctx destination).trace w) :=
  ⟨⟨DialContext_loop_reports env s ctx network destination maxRetry none w,
     DialContext_loop_replay env s ctx network destination maxRetry none w⟩,
   ⟨ListenPacket_loop_reports env s ctx destination maxRetry none w,
     ListenPacket_loop_replay env s ctx destination maxRetry none w⟩⟩

/-- Claim C3. If `Pick` returns nil on every call, a call of `DialContext` (and of
`ListenPacket`) makes exactly one call into its collaborators, a `Pick`: one `Pick`, no backend
attempt, no `ReportFailure`; and it returns a nil connection with the error
"no outbound available". -/
theorem C3_no_candidate
    (env : Env W B O D E C PC NPC Ctx Meta H G R L OM PM CM Opt PGO PS)
    (s : LoadBalance G B Ctx R L OM PM CM Opt) (w : W) (ctx : Ctx) (network : String)
    (destination : D)
    (hnone : ∀ (w : W) (b : Option B) (c : Ctx) (nw : String) (d : D),
      (env.Pick w b c nw d).1 = none) :
    ((DialContext env s w ctx network destination).trace =
        [Event.Pick s.Balancer ctx network destination none] ∧
      picks (DialContext env s w ctx network destination).trace = 1 ∧
      attempts (DialContext env s w ctx network destination).trace = 0 ∧
      reports (DialContext env s w ctx network destination).trace = [] ∧
      (DialContext env s w ctx network destination).val =
        (none, some (Error.New "no outbound available"))) ∧
    ((ListenPacket env s w ctx destination).trace =
        [Event.Pick s.Balancer ctx NetworkUDP destination none] ∧
      picks (ListenPacket env s w ctx destination).trace = 1 ∧
      attempts (ListenPacket env s w ctx destination).trace = 0 ∧
      reports (ListenPacket env s w ctx destination).trace = [] ∧
      (ListenPacket env s w ctx destination).val =
        (none, some (Error.New "no outbound available"))) := by
  constructor
  · simp [DialContext, maxRetry, DialContext.loop, hnone, picks, attempts, reports,
      Event.isPick, Event.isAttempt, Event.reported?]
  · simp [ListenPacket, maxRetry, ListenPacket.loop, hnone, picks, attempts, reports,
      Event.isPick, Event.isAttempt, Event.reported?]

/-- Claim C4, as amended. Every call of `DialContext`, and every call of `ListenPacket`, ends
in exactly one of three ways. Its last call is a successful attempt, after fewer than 5
failed ones: it returns that attempt's connection with a nil error. Or its last call is a
`Pick` that returned nil, after fewer than 5 attempts (possibly after some failed attempts):
it returns the error "no outbound available". Or it made 5 attempts, all failed, and no `Pick`
returned nil: it returns the error of the last failed attempt. So whenever 5 attempts failed
the returned error is that of the fifth, and whenever the last call is a nil `Pick` the
returned error is the no-outbound error, whatever attempts were made before. -/
theorem C4_returned_error
    (env : Env W B O D E C PC NPC Ctx Meta H G R L OM PM CM Opt PGO PS)
    (s : LoadBalance G B Ctx R L OM PM CM Opt) (w : W) (ctx : Ctx) (network : String)
    (destination : D) :
    ((((∃ pre o conn, (DialContext env s w ctx network destination).trace =
              pre ++ [Event.DialContext o ctx network destination conn none] ∧
            (DialContext env s w ctx network destination).val = (conn, none)) ∧
          (failures (DialContext env s w ctx network destination).trace).length < 5) ∨
        ((∃ pre, (DialContext env s w ctx network destination).trace =
              pre ++ [Event.Pick s.Balancer ctx network destination none]) ∧
          attempts (DialContext env s w ctx network destination).trace < 5 ∧
          (failures (DialContext env s w ctx network destination).trace).length < 5 ∧
          (DialContext env s w ctx network destination).val =
            (none, some (Error.New "no outbound available"))) ∨
        (attempts (DialContext env s w ctx network destination).trace = 5 ∧
          (failures (DialContext env s w ctx network destination).trace).length = 5 ∧
          (∀ ev ∈ (DialContext env s w ctx network destination).trace,
            ev.isPickNone = false) ∧
          ∃ e, (failures (DialContext env s w ctx network destination).trace).getLast?
              = some e ∧
            (DialContext env s w ctx network destination).val
              = (none, some (Error.upstream e)))) ∧
      ((failures (DialContext env s w ctx network destination).trace).length = 5 →
        ∃ e, (failures (DialContext env s w ctx network destination).trace).getLast?
            = some e ∧
          (DialContext env s w ctx network destination).val
            = (none, some (Error.upstream e))) ∧
      (∀ (b : Option B) (c : Ctx) (nw : String) (d : D),
        (DialContext env s w ctx network destination).trace.getLast?
          = some (Event.Pick b c nw d none) →
        (DialContext env s w ctx network destination).val =
          (none, some (Error.New "no outbound available")))) ∧
    ((((∃ pre o conn, (ListenPacket env s w ctx destination).trace =
              pre ++ [Event.ListenPacket o ctx destination conn none] ∧
            (ListenPacket env s w ctx destination).val = (conn, none)) ∧
          (failures (ListenPacket env s w ctx destination).trace).length < 5) ∨
        ((∃ pre, (ListenPacket env s w ctx destination).trace =
              pre ++ [Event.Pick s.Balancer ctx NetworkUDP destination none]) ∧
          attempts (ListenPacket env s w ctx destination).trace < 5 ∧
          (failures (ListenPacket env s w ctx destination).trace).length < 5 ∧
          (ListenPacket env s w ctx destination).val =
            (none, some (Error.New "no outbound available"))) ∨
        (attempts (ListenPacket env s w ctx destination).trace = 5 ∧
          (failures (ListenPacket env s w ctx destination).trace).length = 5 ∧
          (∀ ev ∈ (ListenPacket env s w ctx destination).trace, ev.isPickNone = false) ∧
          ∃ e, (failures (ListenPacket env s w ctx destination).trace).getLast? = some e ∧
            (ListenPacket env s w ctx destination).val = (none, some (Error.upstream e)))) ∧
      ((failures (ListenPacket env s w ctx destination).trace).length = 5 →
        ∃ e, (failures (ListenPacket env s w ctx destination).trace).getLast? = some e ∧
          (ListenPacket env s w ctx destination).val = (none, some (Error.upstream e))) ∧
      (∀ (b : Option B) (c : Ctx) (nw : String) (d : D),
        (ListenPacket env s w ctx destination).trace.getLast?
          = some (Event.Pick b c nw d none) →
        (ListenPacket env s w ctx destination).val =
          (none, some (Error.New "no outbound available")))) :=
  ⟨DialContext_outcome env s w ctx network destination,
   ListenPacket_outcome env s w ctx destination⟩

/-- The scenario of claim C1: the strategy picks `A`, `A`, `B`, `A` fails twice and `B`
succeeds. The call makes 3 attempts, reports `A` twice, stops at the successful dial and
returns the connection of `B` with a nil error. -/
theorem C1_dispatch_bounded_first_success_witness :
    attempts (DialContext scriptEnv startedGroup scriptAAB 0 "tcp" "example.org:443").trace = 3 ∧
    reports (DialContext scriptEnv startedGroup scriptAAB 0 "tcp" "example.org:443").trace
      = ["A", "A"] ∧
    (DialContext scriptEnv startedGroup scriptAAB 0 "tcp" "example.org:443").trace.getLast? =
      some (Event.DialContext "B" 0 "tcp" "example.org:443" (some "connB") none) ∧
    (DialContext scriptEnv startedGroup scriptAAB 0 "tcp" "example.org:443").val =
      (some "connB", none) :=
  ⟨by decide, by decide, by decide,
    ((C1_dispatch_bounded_first_success scriptEnv startedGroup scriptAAB 0 "tcp"
      "example.org:443").1.2
      ((DialContext scriptEnv startedGroup scriptAAB 0 "tcp" "example.org:443").trace.take 9)
      [] "B" 0 "tcp" "example.org:443" (some "connB") (by decide)).2⟩

/-- In the scenario where `A` fails twice and `B` succeeds, the reports are the failed
candidates `A`, `A`, the world left by the call is the replay of its trace, and in that world
the balancer has been told of `A` twice through `ReportFailure`. -/
theorem C2_reports_are_failed_candidates_witness :
    reports (DialContext scriptEnv startedGroup scriptAAB 0 "tcp" "example.org:443").trace =
      failedCandidates
        (DialContext scriptEnv startedGroup scriptAAB 0 "tcp" "example.org:443").trace ∧
    failedCandidates
      (DialContext scriptEnv startedGroup scriptAAB 0 "tcp" "example.org:443").trace
      = ["A", "A"] ∧
    (DialContext scriptEnv startedGroup scriptAAB 0 "tcp" "example.org:443").world =
      replay scriptEnv startedGroup
        (DialContext scriptEnv startedGroup scriptAAB 0 "tcp" "example.org:443").trace
        scriptAAB ∧
    (DialContext scriptEnv startedGroup scriptAAB 0 "tcp" "example.org:443").world.reported
      = ["A", "A"] :=
  ⟨(C2_reports_are_failed_candidates scriptEnv startedGroup scriptAAB 0 "tcp"
      "example.org:443").1.1,
   by decide,
   (C2_reports_are_failed_candidates scriptEnv startedGroup scriptAAB 0 "tcp"
      "example.org:443").1.2.1,
   by decide⟩

/-- With a strategy whose `Pick` always returns nil, `DialContext` and `ListenPacket` return
a nil connection and the error "no outbound available" after a single `Pick`. -/
theorem C3_no_candidate_witness :
    (∀ (w : Script) (b : Option Nat) (c : Nat) (nw : String) (d : String),
      (emptyEnv.Pick w b c nw d).1 = none) ∧
    (DialContext emptyEnv startedGroup (script [] []) 0 "tcp" "example.org:443").trace =
      [Event.Pick (some 7) 0 "tcp" "example.org:443" none] ∧
    (DialContext emptyEnv startedGroup (script [] []) 0 "tcp" "example.org:443").val =
      (none, some (Error.New "no outbound available")) ∧
    (ListenPacket emptyEnv startedGroup (script [] []) 0 "example.org:53").val =
      (none, some (Error.New "no outbound available")) :=
  ⟨fun _ _ _ _ _ => rfl,
   (C3_no_candidate emptyEnv startedGroup (script [] []) 0 "tcp" "example.org:443"
      (fun _ _ _ _ _ => rfl)).1.1,
   (C3_no_candidate emptyEnv startedGroup (script [] []) 0 "tcp" "example.org:443"
      (fun _ _ _ _ _ => rfl)).1.2.2.2.2,
   (C3_no_candidate emptyEnv startedGroup (script [] []) 0 "tcp" "example.org:53"
      (fun _ _ _ _ _ => rfl)).2.2.2.2.2⟩

/-- Claim C4 fails as stated. The strategy picks `A`, the dial on `A` fails with `e1`, and the
next `Pick` returns nil: one backend attempt was made, its error is `e1`, yet the call returns
the error "no outbound available" and not `e1`. -/
theorem C4_counterexample :
    attempts (DialContext scriptEnv startedGroup scriptFailThenNone 0 "tcp"
      "example.org:443").trace = 1 ∧
    (failures (DialContext scriptEnv startedGroup scriptFailThenNone 0 "tcp"
      "example.org:443").trace).getLast? = some "e1" ∧
    (DialContext scriptEnv startedGroup scriptFailThenNone 0 "tcp" "example.org:443").val =
      (none, some (Error.New "no outbound available")) ∧
    ¬ (0 < attempts (DialContext scriptEnv startedGroup scriptFailThenNone 0 "tcp"
          "example.org:443").trace →
        (DialContext scriptEnv startedGroup scriptFailThenNone 0 "tcp" "example.org:443").val.2
          = ((failures (DialContext scriptEnv startedGroup scriptFailThenNone 0 "tcp"
              "example.org:443").trace).getLast?).map Error.upstream) := by
  refine ⟨by decide, by decide, by decide, ?_⟩
  intro h
  exact absurd (h (by decide)) (by decide)

/-- When the strategy always has a candidate and every attempt fails, the call makes five
failed attempts and returns the error `e5` of the fifth, for `DialContext` and for
`ListenPacket`. -/
theorem C4_returned_error_witness :
    (failures (DialContext scriptEnv startedGroup scriptFiveFailures 0 "tcp"
      "example.org:443").trace).length = 5 ∧
    (DialContext scriptEnv startedGroup scriptFiveFailures 0 "tcp" "example.org:443").val =
      (none, some (Error.upstream "e5")) ∧
    (failures (ListenPacket scriptEnv startedGroup scriptFiveFailures 0
      "example.org:53").trace).length = 5 ∧
    (ListenPacket scriptEnv startedGroup scriptFiveFailures 0 "example.org:53").val =
      (none, some (Error.upstream "e5")) := by
  obtain ⟨e, he, hval⟩ := (C4_returned_error scriptEnv startedGroup scriptFiveFailures 0 "tcp"
    "example.org:443").1.2.1 (by decide)
  obtain ⟨e', he', hval'⟩ := (C4_returned_error scriptEnv startedGroup scriptFiveFailures 0
    "tcp" "example.org:53").2.2.1 (by decide)
  have h5 : (failures (DialContext scriptEnv startedGroup scriptFiveFailures 0 "tcp"
      "example.org:443").trace).getLast? = some "e5" := by decide
  have h5' : (failures (ListenPacket scriptEnv startedGroup scriptFiveFailures 0
      "example.org:53").trace).getLast? = some "e5" := by decide
  rw [h5] at he
  rw [h5'] at he'
  cases he
  cases he'
  exact ⟨by decide, hval, by decide, hval'⟩

end dispatch

end group

/-! ## The load-balance group: hand-off -/

namespace group

section handoff

variable {W B O D E C PC NPC Ctx Meta H G R L OM PM CM Opt PGO PS : Type}

/-- Claim C9. A call of `NewConnectionEx`, and likewise of `NewPacketConnectionEx`, makes
exactly two calls: one `Pick`, with the destination of the connection's metadata, then one
delivery; it makes no `ReportFailure` and no backend attempt. When `Pick` returns nil the
delivery is the connection manager's, with the failing dialer built from the error
"no outbound available"; when the candidate implements the direct hand-off interface it is the
candidate's own handler; otherwise it is the connection manager's, with the candidate as
dialer. The recorded calls are the calls made: the world the method leaves is the one obtained
by applying the collaborator function of the `Pick` and then that of the delivery to the
recorded arguments, and the recorded `Pick` result is the one the balancer returned. -/
theorem C9_handoff_one_pick_one_delivery
    (env : Env W B O D E C PC NPC Ctx Meta H G R L OM PM CM Opt PGO PS)
    (s : LoadBalance G B Ctx R L OM PM CM Opt) (w : W) (ctx : Ctx) (conn : C) (pconn : NPC)
    (metadata : Meta) (onClose : H) :
    (∃ (network : String) (picked : Option O) (delivery : Event B O D E C PC NPC Ctx Meta H),
      (NewConnectionEx env s w ctx conn metadata onClose).trace =
        [Event.Pick s.Balancer ctx network (env.Destination metadata) picked, delivery] ∧
      picked = (env.Pick w s.Balancer ctx network (env.Destination metadata)).1 ∧
      picks (NewConnectionEx env s w ctx conn metadata onClose).trace = 1 ∧
      reports (NewConnectionEx env s w ctx conn metadata onClose).trace = [] ∧
      attempts (NewConnectionEx env s w ctx conn metadata onClose).trace = 0 ∧
      (NewConnectionEx env s w ctx conn metadata onClose).world =
        replay env s (NewConnectionEx env s w ctx conn metadata onClose).trace w ∧
      Faithful env s (NewConnectionEx env s w ctx conn metadata onClose).trace w ∧
      (picked = none → delivery = Event.NewConnection ctx
        (Dialer.newErrDailer (Error.New "no outbound available")) conn metadata onClose) ∧
      (∀ o, picked = some o → env.IsConnectionHandlerEx o = true →
        delivery = Event.HandlerNewConnectionEx o (env.ContextWithIsExternalConnection ctx)
          conn metadata onClose) ∧
      (∀ o, picked = some o → env.IsConnectionHandlerEx o = false →
        delivery = Event.NewConnection (env.ContextWithIsExternalConnection ctx)
          (Dialer.outbound o) conn metadata onClose)) ∧
    (∃ (network : String) (picked : Option O) (delivery : Event B O D E C PC NPC Ctx Meta H),
      (NewPacketConnectionEx env s w ctx pconn metadata onClose).trace =
        [Event.Pick s.Balancer ctx network (env.Destination metadata) picked, delivery] ∧
      picked = (env.Pick w s.Balancer ctx network (env.Destination metadata)).1 ∧
      picks (NewPacketConnectionEx env s w ctx pconn metadata onClose).trace = 1 ∧
      reports (NewPacketConnectionEx env s w ctx pconn metadata onClose).trace = [] ∧
      attempts (NewPacketConnectionEx env s w ctx pconn metadata onClose).trace = 0 ∧
      (NewPacketConnectionEx env s w ctx pconn metadata onClose).world =
        replay env s (NewPacketConnectionEx env s w ctx pconn metadata onClose).trace w ∧
      Faithful env s (NewPacketConnectionEx env s w ctx pconn metadata onClose).trace w ∧
      (picked = none → delivery = Event.NewPacketConnection ctx
        (Dialer.newErrDailer (Error.New "no outbound available")) pconn metadata onClose) ∧
      (∀ o, picked = some o → env.IsPacketConnectionHandlerEx o = true →
        delivery = Event.HandlerNewPacketConnectionEx o
          (env.ContextWithIsExternalConnection ctx) pconn metadata onClose) ∧
      (∀ o, picked = some o → env.IsPacketConnectionHandlerEx o = false →
        delivery = Event.NewPacketConnection (env.ContextWithIsExternalConnection ctx)
          (Dialer.outbound o) pconn metadata onClose)) := by
  constructor
  · cases hp : (env.Pick w s.Balancer ctx NetworkUDP (env.Destination metadata)).1 with
    | none =>
      refine ⟨NetworkUDP, none, Event.NewConnection ctx
        (Dialer.newErrDailer (Error.New "no outbound available")) conn metadata onClose, ?_⟩
      simp [NewConnectionEx, hp, picks, reports, attempts, Event.isPick, Event.reported?,
        Event.isAttempt, replay, Faithful, Event.run, Event.agrees]
    | some o =>
      cases hh : env.IsConnectionHandlerEx o with
      | true =>
        refine ⟨NetworkUDP, some o, Event.HandlerNewConnectionEx o
          (env.ContextWithIsExternalConnection ctx) conn metadata onClose, ?_⟩
        simp [NewConnectionEx, hp, hh, picks, reports, attempts, Event.isPick,
          Event.reported?, Event.isAttempt, replay, Faithful, Event.run, Event.agrees]
      | false =>
        refine ⟨NetworkUDP, some o, Event.NewConnection
          (env.ContextWithIsExternalConnection ctx) (Dialer.outbound o) conn metadata onClose,
          ?_⟩
        simp [NewConnectionEx, hp, hh, picks, reports, attempts, Event.isPick,
          Event.reported?, Event.isAttempt, replay, Faithful, Event.run, Event.agrees]
  · cases hp : (env.Pick w s.Balancer ctx NetworkUDP (env.Destination metadata)).1 with
    | none =>
      refine ⟨NetworkUDP, none, Event.NewPacketConnection ctx
        (Dialer.newErrDailer (Error.New "no outbound available")) pconn metadata onClose, ?_⟩
      simp [NewPacketConnectionEx, hp, picks, reports, attempts, Event.isPick,
        Event.reported?, Event.isAttempt, replay, Faithful, Event.run, Event.agrees]
    | some o =>
      cases hh : env.IsPacketConnectionHandlerEx o with
      | true =>
        refine ⟨NetworkUDP, some o, Event.HandlerNewPacketConnectionEx o
          (env.ContextWithIsExternalConnection ctx) pconn metadata onClose, ?_⟩
        simp [NewPacketConnectionEx, hp, hh, picks, reports, attempts, Event.isPick,
          Event.reported?, Event.isAttempt, replay, Faithful, Event.run, Event.agrees]
      | false =>
        refine ⟨NetworkUDP, some o, Event.NewPacketConnection
          (env.ContextWithIsExternalConnection ctx) (Dialer.outbound o) pconn metadata
          onClose, ?_⟩
        simp [NewPacketConnectionEx, hp, hh, picks, reports, attempts, Event.isPick,
          Event.reported?, Event.isAttempt, replay, Faithful, Event.run, Event.agrees]

/-- Every `Pick` of the loop of `DialContext` is made with the caller's network. -/
theorem DialContext_loop_pickNetworks
    (env : Env W B O D E C PC NPC Ctx Meta H G R L OM PM CM Opt PGO PS)
    (s : LoadBalance G B Ctx R L OM PM CM Opt) (ctx : Ctx) (network : String) (destination : D)
    (n : Nat) : ∀ (lastErr : Option (Error E)) (w : W),
      ∀ nw ∈ pickNetworks (DialContext.loop env s ctx network destination n lastErr w).trace,
        nw = network := by
  induction n with
  | zero => intro lastErr w; simp [DialContext.loop, pickNetworks]
  | succ n ih =>
    intro lastErr w
    simp only [DialContext.loop]
    split
    · simp [pickNetworks, Event.pickNetwork?]
    · split
      · simp [pickNetworks, Event.pickNetwork?]
      · intro nw hnw
        simp only [pickNetworks, List.filterMap_cons, Event.pickNetwork?, List.mem_cons] at hnw
        rcases hnw with rfl | hnw
        · rfl
        · exact ih _ _ nw hnw

/-- Every `Pick` of the loop of `ListenPacket` is made with the network `udp`. -/
theorem ListenPacket_loop_pickNetworks
    (env : Env W B O D E C PC NPC Ctx Meta H G R L OM PM CM Opt PGO PS)
    (s : LoadBalance G B Ctx R L OM PM CM Opt) (ctx : Ctx) (destination : D)
    (n : Nat) : ∀ (lastErr : Option (Error E)) (w : W),
      ∀ nw ∈ pickNetworks (ListenPacket.loop env s ctx destination n lastErr w).trace,
        nw = NetworkUDP := by
  induction n with
  | zero => intro lastErr w; simp [ListenPacket.loop, pickNetworks]
  | succ n ih =>
    intro lastErr w
    simp only [ListenPacket.loop]
    split
    · simp [pickNetworks, Event.pickNetwork?]
    · split
      · simp [pickNetworks, Event.pickNetwork?]
      · intro nw hnw
        simp only [pickNetworks, List.filterMap_cons, Event.pickNetwork?, List.mem_cons] at hnw
        rcases hnw with rfl | hnw
        · rfl
        · exact ih _ _ nw hnw

/-- The network given to `Pick` by each method, as the code has it: `DialContext` passes the
caller's network on, `ListenPacket` and `NewPacketConnectionEx` use `udp`, and the stream
hand-off `NewConnectionEx` uses `udp` as well. -/
theorem pick_network_of_each_method
    (env : Env W B O D E C PC NPC Ctx Meta H G R L OM PM CM Opt PGO PS)
    (s : LoadBalance G B Ctx R L OM PM CM Opt) (w : W) (ctx : Ctx) (network : String)
    (destination : D) (conn : C) (pconn : NPC) (metadata : Meta) (onClose : H) :
    (∀ nw ∈ pickNetworks (DialContext env s w ctx network destination).trace, nw = network) ∧
    (∀ nw ∈ pickNetworks (ListenPacket env s w ctx destination).trace, nw = "udp") ∧
    pickNetworks (NewPacketConnectionEx env s w ctx pconn metadata onClose).trace = ["udp"] ∧
    pickNetworks (NewConnectionEx env s w ctx conn metadata onClose).trace = ["udp"] := by
  refine ⟨DialContext_loop_pickNetworks env s ctx network destination maxRetry none w,
    ListenPacket_loop_pickNetworks env s ctx destination maxRetry none w, ?_, ?_⟩
  · simp only [NewPacketConnectionEx]
    split
    · rfl
    · split <;> rfl
  · simp only [NewConnectionEx]
    split
    · rfl
    · split <;> rfl

/-- Claim C10 at a stream hand-off: `NewConnectionEx` on a TCP connection to `example.org:443`
calls `Pick` with the network `udp`, not `tcp`. -/
theorem C10_NewConnectionEx_picks_udp :
    (NewConnectionEx scriptEnv startedGroup (script [some "A"] []) 0 "conn"
      "example.org:443" ()).trace =
      [Event.Pick (some 7) 0 "udp" "example.org:443" (some "A"),
       Event.NewConnection 1 (Dialer.outbound "A") "conn" "example.org:443" ()] ∧
    pickNetworks (NewConnectionEx scriptEnv startedGroup (script [some "A"] []) 0 "conn"
      "example.org:443" ()).trace ≠ [NetworkTCP] := by
  constructor
  · decide
  · decide

end handoff

end group

/-! ## The load-balance group: lifecycle -/

namespace group

section lifecycle

variable {W B O D E C PC NPC Ctx Meta H G R L OM PM CM Opt PGO PS : Type}

/-- On a group whose balancer is nil, any number of `Close` calls return nil each, call
nothing, and leave the group and the world as they were. -/
theorem closeTimes_of_nil
    (env : Env W B O D E C PC NPC Ctx Meta H G R L OM PM CM Opt PGO PS)
    (s : LoadBalance G B Ctx R L OM PM CM Opt) (hs : s.Balancer = none) (n : Nat) :
    ∀ (w : W), (closeTimes env n s w).val = List.replicate n none ∧
      (closeTimes env n s w).trace = [] ∧
      (closeTimes env n s w).self = s ∧
      (closeTimes env n s w).world = w := by
  induction n with
  | zero => intro w; simp [closeTimes]
  | succ n ih =>
    intro w
    have hc : Close env s w = ⟨none, s, w, []⟩ := by simp [Close, hs]
    simp only [closeTimes, hc, List.nil_append, List.replicate_succ]
    exact ⟨congrArg _ (ih w).1, (ih w).2⟩

/-- On a group whose balancer is set, `n` successive `Close` calls call the stop hook `n`
times and leave the group as it was; the world they leave is the one the `n` recorded stop-hook
calls produce, and each recorded error is the one the hook returned. -/
theorem closeTimes_of_set
    (env : Env W B O D E C PC NPC Ctx Meta H G R L OM PM CM Opt PGO PS)
    (s : LoadBalance G B Ctx R L OM PM CM Opt) (hs : s.Balancer ≠ none) (n : Nat) :
    ∀ (w : W), stops (closeTimes env n s w).trace = n ∧ (closeTimes env n s w).self = s ∧
      (closeTimes env n s w).world = replay env s (closeTimes env n s w).trace w ∧
      Faithful env s (closeTimes env n s w).trace w := by
  induction n with
  | zero => intro w; simp [closeTimes, stops, replay, Faithful]
  | succ n ih =>
    intro w
    cases hb : s.Balancer with
    | none => exact absurd hb hs
    | some b =>
      have hself : (Close env s w).self = s := by simp [Close, hb]
      have htrace : (Close env s w).trace =
          [Event.BalancerClose (some b) (env.BalancerClose w (some b)).1] := by
        simp [Close, hb]
      have hworld : (Close env s w).world = (env.BalancerClose w (some b)).2 := by
        simp [Close, hb]
      simp only [closeTimes, hself, htrace, hworld, List.singleton_append, replay, Faithful,
        Event.run, Event.agrees, true_and]
      refine ⟨?_, (ih _).2.1, (ih _).2.2.1, (ih _).2.2.2⟩
      simp only [stops, List.filter_cons, Event.isBalancerClose, if_true, List.length_cons]
      exact congrArg Nat.succ (ih _).1

/-- Claim C8. On a group fresh from `NewLoadBalance`, on which `Start` was never called,
`Close` returns nil, calls no stop hook (it calls nothing at all) and leaves every field of
the group unchanged; and so does any number `n` of successive `Close` calls. The world outside
the group is left as it was too. -/
theorem C8_close_before_start
    (env : Env W B O D E C PC NPC Ctx Meta H G R L OM PM CM Opt PGO PS)
    (ctx : Ctx) (router : R) (logger : L) (tag : String) (options : Opt) (w : W) (n : Nat) :
    ((Close env (NewLoadBalance env ctx router logger tag options) w).val = none ∧
      (Close env (NewLoadBalance env ctx router logger tag options) w).trace = [] ∧
      (Close env (NewLoadBalance env ctx router logger tag options) w).self =
        NewLoadBalance env ctx router logger tag options) ∧
    ((closeTimes env n (NewLoadBalance env ctx router logger tag options) w).val =
        List.replicate n none ∧
      (closeTimes env n (NewLoadBalance env ctx router logger tag options) w).trace = [] ∧
      stops (closeTimes env n (NewLoadBalance env ctx router logger tag options) w).trace = 0 ∧
      (closeTimes env n (NewLoadBalance env ctx router logger tag options) w).self =
        NewLoadBalance env ctx router logger tag options) ∧
    (Close env (NewLoadBalance env ctx router logger tag options) w).world = w ∧
    (closeTimes env n (NewLoadBalance env ctx router logger tag options) w).world = w := by
  have h := closeTimes_of_nil env (NewLoadBalance env ctx router logger tag options) rfl n w
  refine ⟨⟨rfl, rfl, rfl⟩, ⟨h.1, h.2.1, ?_, h.2.2.1⟩, rfl, h.2.2.2⟩
  rw [h.2.1]
  rfl

/-- Claim C7 fails as stated. After a successful `Start`, two `Close` calls call the stop hook
`Balancer.Close` twice, once each. -/
theorem C7_counterexample :
    (Start scriptEnv freshGroup (script [] [])).val = none ∧
    (closeTimes scriptEnv 2 (Start scriptEnv freshGroup (script [] [])).self
      (Start scriptEnv freshGroup (script [] [])).world).trace =
      [Event.BalancerClose (some 7) none, Event.BalancerClose (some 7) none] ∧
    ¬ stops (closeTimes scriptEnv 2 (Start scriptEnv freshGroup (script [] [])).self
      (Start scriptEnv freshGroup (script [] [])).world).trace ≤ 1 := by
  refine ⟨by decide, by decide, by decide⟩

/-- Claim C7, as amended. After a successful `Start` that set the strategy, every `Close` call
calls the stop hook `Balancer.Close` exactly once: `n` successive `Close` calls call it `n`
times in total, so at most once only when `n ≤ 1`. The recorded calls are the calls made: the
world left by the `Close` calls is the one obtained by applying `Balancer.Close` once for each
recorded call, and each recorded error is the one the hook returned. -/
theorem C7_stop_hook_once_per_close
    (env : Env W B O D E C PC NPC Ctx Meta H G R L OM PM CM Opt PGO PS)
    (s : LoadBalance G B Ctx R L OM PM CM Opt) (w : W) (n : Nat)
    (_hstart : (Start env s w).val = none)
    (hset : (Start env s w).self.Balancer ≠ none) :
    stops (closeTimes env n (Start env s w).self (Start env s w).world).trace = n ∧
    (stops (closeTimes env n (Start env s w).self (Start env s w).world).trace ≤ 1 ↔ n ≤ 1) ∧
    (closeTimes env n (Start env s w).self (Start env s w).world).world =
      replay env (Start env s w).self
        (closeTimes env n (Start env s w).self (Start env s w).world).trace
        (Start env s w).world ∧
    Faithful env (Start env s w).self
      (closeTimes env n (Start env s w).self (Start env s w).world).trace
      (Start env s w).world := by
  have h := closeTimes_of_set env (Start env s w).self hset n (Start env s w).world
  exact ⟨h.1, by rw [h.1], h.2.2.1, h.2.2.2⟩

/-- After a successful `Start` in the scripted world, three `Close` calls call the stop hook
three times. -/
theorem C7_stop_hook_once_per_close_witness :
    (Start scriptEnv freshGroup (script [] [])).val = none ∧
    (Start scriptEnv freshGroup (script [] [])).self.Balancer ≠ none ∧
    stops (closeTimes scriptEnv 3 (Start scriptEnv freshGroup (script [] [])).self
      (Start scriptEnv freshGroup (script [] [])).world).trace = 3 :=
  ⟨by decide, by decide,
    (C7_stop_hook_once_per_close scriptEnv freshGroup (script [] []) 3 (by decide)
      (by decide)).1⟩

/-- Claim C6 fails as stated. When the strategy's start hook fails, `Start` returns its error
with the strategy reference already set: the group was built with a nil balancer, has the
balancer `7` after the failed `Start`, and a later `Close` calls that balancer's stop hook. -/
theorem C6_counterexample :
    freshGroup.Balancer = none ∧
    (Start scriptEnv freshGroup scriptStartFails).val = some "start failed" ∧
    (Start scriptEnv freshGroup scriptStartFails).trace =
      [Event.InitProviders none, Event.BalancerNew (some 7) none,
       Event.BalancerStart (some 7) (some "start failed")] ∧
    (Start scriptEnv freshGroup scriptStartFails).self.Balancer = some 7 ∧
    (Start scriptEnv freshGroup scriptStartFails).self.Balancer ≠ freshGroup.Balancer ∧
    (Close scriptEnv (Start scriptEnv freshGroup scriptStartFails).self
      (Start scriptEnv freshGroup scriptStartFails).world).trace =
      [Event.BalancerClose (some 7) none] := by
  refine ⟨by decide, by decide, by decide, by decide, by decide, by decide⟩

/-- Claim C6, as amended. When `Start` returns an error `e`, one of two things happened.
Either `e` is the error of `InitProviders`, or `InitProviders` succeeded and `e` is the error
of `balancer.New`: then nothing was called after the failing call, the strategy reference is
as before the call, and if it was nil, later `Close` calls call nothing. Or both succeeded and
`e` is the error of the strategy's start hook `Balancer.Start`: then the strategy reference is
the strategy `b` that `balancer.New` returned, and a later `Close`, in any world, calls the
stop hook `Balancer.Close` of `b` once and returns its error when `b` is not nil, and calls
nothing when `b` is nil. -/
theorem C6_start_failure
    (env : Env W B O D E C PC NPC Ctx Meta H G R L OM PM CM Opt PGO PS)
    (s : LoadBalance G B Ctx R L OM PM CM Opt) (w : W) (e : E)
    (herr : (Start env s w).val = some e) :
    (((((env.InitProviders w s.GroupAdapter s.outbound s.provider).1.1 = some e ∧
          (Start env s w).trace = [Event.InitProviders (some e)]) ∨
        ((env.InitProviders w s.GroupAdapter s.outbound s.provider).1.1 = none ∧
          ∃ b, (env.BalancerNew (env.InitProviders w s.GroupAdapter s.outbound s.provider).2 s.ctx s.router s.outbound
          (env.Providers (env.InitProviders w s.GroupAdapter s.outbound s.provider).1.2) s.options s.logger).1 = (b, some e) ∧
            (Start env s w).trace =
              [Event.InitProviders none, Event.BalancerNew b (some e)])) ∧
      (Start env s w).self.Balancer = s.Balancer ∧
      (s.Balancer = none → ∀ n,
        (closeTimes env n (Start env s w).self (Start env s w).world).trace = [])) ∨
    ((env.InitProviders w s.GroupAdapter s.outbound s.provider).1.1 = none ∧
      ∃ b, (env.BalancerNew (env.InitProviders w s.GroupAdapter s.outbound s.provider).2 s.ctx s.router s.outbound
          (env.Providers (env.InitProviders w s.GroupAdapter s.outbound s.provider).1.2) s.options s.logger).1 = (b, none) ∧
        (env.BalancerStart (env.BalancerNew (env.InitProviders w s.GroupAdapter s.outbound s.provider).2 s.ctx s.router s.outbound
          (env.Providers (env.InitProviders w s.GroupAdapter s.outbound s.provider).1.2) s.options s.logger).2 b).1 = some e ∧
        (Start env s w).trace =
          [Event.InitProviders none, Event.BalancerNew b none,
           Event.BalancerStart b (some e)] ∧
        (Start env s w).self.Balancer = b ∧
        (Start env s w).world = (env.BalancerStart (env.BalancerNew (env.InitProviders w s.GroupAdapter s.outbound s.provider).2 s.ctx s.router s.outbound
          (env.Providers (env.InitProviders w s.GroupAdapter s.outbound s.provider).1.2) s.options s.logger).2 b).2 ∧
        (∀ b', b = some b' → ∀ w',
          (Close env (Start env s w).self w').val = (env.BalancerClose w' (some b')).1 ∧
          (Close env (Start env s w).self w').trace =
            [Event.BalancerClose (some b') (env.BalancerClose w' (some b')).1] ∧
          (Close env (Start env s w).self w').world = (env.BalancerClose w' (some b')).2 ∧
          (Close env (Start env s w).self w').self = (Start env s w).self) ∧
        (b = none → ∀ w', (Close env (Start env s w).self w').trace = []))) := by
  revert herr
  simp only [Start]
  split
  · rename_i hi
    intro herr
    simp only [Option.some.injEq] at herr
    subst herr
    left
    refine ⟨Or.inl ⟨hi, rfl⟩, rfl, ?_⟩
    intro hs n
    exact (closeTimes_of_nil env _ (by exact hs) n _).2.1
  · rename_i hi
    split
    · rename_i hn
      intro herr
      simp only [Option.some.injEq] at herr
      subst herr
      left
      refine ⟨Or.inr ⟨hi, _, Prod.ext rfl hn, rfl⟩, rfl, ?_⟩
      intro hs n
      exact (closeTimes_of_nil env _ (by exact hs) n _).2.1
    · rename_i hn
      intro herr
      right
      simp only at herr
      refine ⟨hi, _, Prod.ext rfl hn, herr, by rw [herr], rfl, rfl, ?_, ?_⟩
      · intro b' hb' w'
        simp [Close, hb']
      · intro hb w'
        simp [Close, hb]

/-- When provider resolution fails in the scripted world, `Start` returns that error, the
balancer of the group is as before the call (nil), and later `Close` calls call nothing. -/
theorem C6_start_failure_witness :
    (Start scriptEnv freshGroup scriptInitFails).val = some "no such provider" ∧
    (Start scriptEnv freshGroup scriptInitFails).self.Balancer = freshGroup.Balancer ∧
    ∀ n, (closeTimes scriptEnv n (Start scriptEnv freshGroup scriptInitFails).self
      (Start scriptEnv freshGroup scriptInitFails).world).trace = [] := by
  rcases C6_start_failure scriptEnv freshGroup scriptInitFails "no such provider"
    (by decide) with ⟨_, hb, hc⟩ | ⟨hi, _⟩
  · exact ⟨by decide, hb, hc (by decide)⟩
  · exact absurd hi (by decide)

end lifecycle

end group
